import Mathlib

/-!
Verification development for the quality-alerts repository.

The development shallowly embeds the alert-model evaluation engine
(models.py, together with the pieces of database.py, bigquery_queries.py
and daily_update.py it relies on) into Lean.  Conventions of the
embedding:

* Python floats are modelled as exact rationals; Python ints as integers.
* A pandas DataFrame of monthly rows is a list of Row values; SQL and
  pandas filtering, sorting and deduplication are modelled by the
  corresponding list operations (sorts are stable insertion sorts, which
  matches the stable sorts of Python and determines the same output on
  the per-hospital histories, whose (year, month) keys are unique).
* Python dictionaries keyed by hospital name are association lists; a
  dict built by iterating rows maps each key to the last value written,
  which the lookup functions below reproduce.
* The float NaN produced by pandas std() on fewer than two data points
  never escapes the source code: it is immediately replaced by 0.  The
  embedding therefore represents a MEAN+1SD threshold symbolically (the
  BVal type) and gives it real-number semantics via BVal.val, with the
  length check standing for the pd.isna test.
* The ValueError that int() can raise at models.py lines 226-228 is the
  only exception that can escape calculate_model_results (the
  per-hospital loop body is wrapped in try/except), so the engine
  returns an Except value whose error case models exactly that event.
-/

/-- A row of the monthly_mortality table (database.py lines 34-46): one
hospital-month aggregate of the Historical Store. -/
structure Row where
  hospital_name : String
  year : Int
  month : Int
  total_patients : Int
  deaths : Int
  mortality_rate : ℚ
deriving DecidableEq, Repr

/-- A row returned by the live BigQuery aggregate
query_current_month_mortality_all_hospitals (bigquery_queries.py). -/
structure LiveRow where
  hospital_name : String
  total_patients : Int
  deaths : Int
  mortality_rate : ℚ
deriving DecidableEq, Repr

/-- The data reaching one evaluation run of calculate_model_results: the
Historical Store contents, the live-aggregate fetch result, the
expected-death-percentage map, and todays calendar (year, month)
(date.today() in the source, made an explicit input here). -/
structure EvalInput where
  db : List Row
  live : List LiveRow
  expected : List (String × ℚ)
  currentYear : Int
  currentMonth : Int
deriving DecidableEq, Repr

/-- Stable insertion of an element in front of the first position whose
head does not have to precede it. -/
def insertByB (le : α → α → Bool) (a : α) : List α → List α
  | [] => [a]
  | b :: l => if le a b then a :: b :: l else b :: insertByB le a l

/-- Stable insertion sort; models the stable sorts of Python
(list.sort) and the deterministic pandas sort_values on histories with
unique keys. -/
def sortByB (le : α → α → Bool) : List α → List α
  | [] => []
  | a :: l => insertByB le a (sortByB le l)

theorem mem_insertByB (le : α → α → Bool) (a x : α) (l : List α) :
    x ∈ insertByB le a l ↔ x = a ∨ x ∈ l := by
  induction l with
  | nil => simp [insertByB]
  | cons b l ih =>
      by_cases h : le a b = true
      · simp [insertByB, h]
      · simp only [insertByB, if_neg h, List.mem_cons, ih]
        tauto

theorem mem_sortByB (le : α → α → Bool) (x : α) (l : List α) :
    x ∈ sortByB le l ↔ x ∈ l := by
  induction l with
  | nil => simp [sortByB]
  | cons a l ih => simp [sortByB, mem_insertByB, ih]

/-- Descending lexicographic order on (year, month): the comparator of
sort_values(by year and month, ascending=False) in models.py. -/
def rowDescLe (a b : Row) : Bool :=
  decide (b.year < a.year ∨ (b.year = a.year ∧ b.month ≤ a.month))

/-- Ascending lexicographic order on (year, month): the ORDER BY of
get_monthly_data (database.py line 157). -/
def rowAscLe (a b : Row) : Bool :=
  decide (a.year < b.year ∨ (a.year = b.year ∧ a.month ≤ b.month))

/-- models.py: all_data.sort_values(by year and month, ascending=False). -/
def sortDesc (l : List Row) : List Row := sortByB rowDescLe l

/-- database.py get_monthly_data restricted to one hospital: the rows of
the store for that hospital, ordered by year then month ascending. -/
def get_monthly_data (db : List Row) (hospital : String) : List Row :=
  sortByB rowAscLe (db.filter (fun r => r.hospital_name == hospital))

/-- Lexicographic comparison of strings by code point, the order of the
ORDER BY clauses of database.py. -/
def charListLt : List Char → List Char → Bool
  | [], [] => false
  | [], _ :: _ => true
  | _ :: _, [] => false
  | a :: as, b :: bs =>
      if a.toNat < b.toNat then true
      else if b.toNat < a.toNat then false
      else charListLt as bs

/-- database.py get_all_hospitals: SELECT DISTINCT hospital_name ...
ORDER BY hospital_name. -/
def get_all_hospitals (db : List Row) : List String :=
  sortByB (fun a b => charListLt a.data b.data || a == b)
    ((db.map (fun r => r.hospital_name)).dedup)

/-- The previous calendar month, as computed in models.py (lines 174-179,
365-369, 428-432). -/
def prevPeriod (y m : Int) : Int × Int :=
  if m - 1 < 1 then (y - 1, 12) else (y, m - 1)

/-- Python f-string formatting of a period: year, a dash, and the month
zero-padded to two digits. -/
def periodStr (y m : Int) : String :=
  toString y ++ "-" ++ (if m < 10 then "0" ++ toString m else toString m)

/-- models.py get_recent_months_data: drop the excluded (year, month),
sort descending, keep the rows of the first N distinct periods. -/
def get_recent_months_data (monthly_data : List Row) (months : Nat)
    (exclude_year exclude_month : Option Int) : List Row :=
  if monthly_data.isEmpty then monthly_data
  else
    let df : List Row := match exclude_year, exclude_month with
      | some ey, some em => monthly_data.filter (fun r => !(r.year == ey && r.month == em))
      | _, _ => monthly_data
    if df.isEmpty then []
    else
      let dfs := sortDesc df
      let unique_periods := ((dfs.map (fun r => (r.year, r.month))).eraseDups).take months
      if unique_periods.isEmpty then []
      else dfs.filter (fun r => unique_periods.contains (r.year, r.month))

/-- Lookup in the dict built by iterating rows of a DataFrame keyed by
(year, month): the last row written wins. -/
def rateDict (monthly_data : List Row) (y m : Int) : Option ℚ :=
  ((monthly_data.filter (fun r => r.year == y && r.month == m)).getLast?).map
    (fun r => r.mortality_rate)

/-- The list of the last n months counting backwards from (y, m)
inclusive, most recent first (the generation loop of
get_last_6_months_mortality). -/
def monthsBack (y m : Int) : Nat → List (Int × Int)
  | 0 => []
  | n + 1 => (y, m) :: monthsBack (prevPeriod y m).1 (prevPeriod y m).2 n

/-- models.py get_last_6_months_mortality: the six periods ending at the
current month, oldest first, each with the stored mortality rate or 0. -/
def get_last_6_months_mortality (monthly_data : List Row) (cy cm : Int) :
    List (String × ℚ) :=
  (monthsBack cy cm 6).reverse.map
    (fun p => (periodStr p.1 p.2, (rateDict monthly_data p.1 p.2).getD 0))

/-- models.py get_previous_month_deaths: the deaths of the first stored
row of the previous calendar month, if any. -/
def get_previous_month_deaths (all_data : List Row) (cy cm : Int) : Option Int :=
  let p := prevPeriod cy cm
  ((all_data.filter (fun r => r.year == p.1 && r.month == p.2)).head?).map
    (fun r => r.deaths)

/-- Lookup in the live-aggregate dict (models.py lines 260-265): keyed by
hospital name, last row written wins. -/
def liveLookup (live : List LiveRow) (hospital : String) : Option LiveRow :=
  (live.filter (fun l => l.hospital_name == hospital)).getLast?

/-- Lookup in the expected-death-percentage dict
(get_all_expected_death_percentages); its construction keeps the first
row of each hospital (models.py lines 160-162). -/
def expectedLookup (expected : List (String × ℚ)) (hospital : String) : Option ℚ :=
  ((expected.filter (fun p => p.1 == hospital)).head?).map (fun p => p.2)

/-- Python truthiness test of models.py line 455: expected_pct is present,
nonzero and positive. -/
def expectedValid (expected : List (String × ℚ)) (hospital : String) : Bool :=
  match expectedLookup expected hospital with
  | some e => decide (0 < e)
  | none => false

/-- models.py calculate_smr in the branch expected_pct > 0: the smr
column is mortality_rate divided by the expected percentage.  (The other
branch, which stores None, is unreachable from calculate_model_results
because the call is guarded by the same positivity test.) -/
def calculate_smr_vals (rows : List Row) (e : ℚ) : List ℚ :=
  rows.map (fun r => r.mortality_rate / e)

/-- pandas Series.mean: the sum divided by the number of entries. -/
def sampleMean (xs : List ℚ) : ℚ := xs.sum / (xs.length : ℚ)

/-- The square of the sample standard deviation that pandas Series.std
(ddof = 1) computes: sum of squared deviations over (n - 1).  Only
meaningful for two or more entries; std is NaN below that. -/
def sampleVar (xs : List ℚ) : ℚ :=
  ((xs.map (fun x => (x - sampleMean xs) * (x - sampleMean xs))).sum) / ((xs.length : ℚ) - 1)

/-- pandas Series.max of a nonempty series (the default value is never
used: every call site is guarded by a nonemptiness check). -/
def listMaxD (xs : List ℚ) (d : ℚ) : ℚ :=
  match xs with
  | [] => d
  | x :: rest => rest.foldl max x

/-- The threshold value the engine compares against, kept symbolic:
either a number the source computed exactly, or the MEAN+1SD statistic
of a window of values (models.py lines 469-519). -/
inductive BVal where
  | exact : ℚ → BVal
  | meanPlusStd : List ℚ → BVal
deriving DecidableEq, Repr

/-- Real-number semantics of a threshold.  For meanPlusStd the source
computes avg + 1 * std where std is pandas Series.std, replaced by 0
when it is NaN, i.e. exactly when the window has fewer than two entries
(models.py lines 474-478, 495-499, 512-516). -/
noncomputable def BVal.val : BVal → ℝ
  | .exact q => (q : ℝ)
  | .meanPlusStd xs =>
      (sampleMean xs : ℝ) +
        (if xs.length ≤ 1 then 0 else Real.sqrt ((sampleVar xs : ℚ) : ℝ))

/-- Decides the strict comparison threshold_value > threshold of
models.py line 523.  The theorem BVal.ltB_iff proves that this decision
agrees with the real-number comparison against BVal.val. -/
def BVal.ltB (t : BVal) (v : ℚ) : Bool :=
  match t with
  | .exact q => decide (q < v)
  | .meanPlusStd xs =>
      decide (sampleMean xs < v) &&
        (decide (xs.length ≤ 1) ||
          decide (sampleVar xs < (v - sampleMean xs) * (v - sampleMean xs)))

/-- The trend_info attached to Model 13 alerts (models.py lines 413-420). -/
structure TrendInfo where
  month1 : String
  month2 : String
  month3 : String
  rate1 : ℚ
  rate2 : ℚ
  rate3 : ℚ
deriving DecidableEq, Repr

/-- One alert emitted by calculate_model_results.  The smr field models
a Python dict entry: none stands for an absent key, some none for a key
holding None, and some (some v) for a key holding the float v. -/
structure AlertResult where
  hospital_name : String
  current_period : String
  deaths : Int
  mortality_rate : ℚ
  threshold : BVal
  smr : Option (Option ℚ)
  status : String
  last_6_months_mortality : List (String × ℚ)
  trend_info : Option TrendInfo
deriving DecidableEq, Repr

/-- Python str.replace of the pattern "model" by the empty string, as in
model_id.replace("model", "") (models.py lines 226-228): scan left to
right, removing each non-overlapping occurrence. -/
def stripModelOcc : List Char → List Char
  | 'm' :: 'o' :: 'd' :: 'e' :: 'l' :: rest => stripModelOcc rest
  | c :: rest => c :: stripModelOcc rest
  | [] => []

/-- The remainder of a model id after removing every occurrence of
"model". -/
def modelSuffix (model_id : String) : List Char := stripModelOcc model_id.data

/-- model_id.startswith("model"). -/
def startsWithModel (model_id : String) : Bool :=
  "model".data.isPrefixOf model_id.data

/-- Reads a list of decimal digits as a number, none when the list is
empty or holds a non-digit. -/
def digitsToNat : List Char → Option Nat
  | [] => none
  | [c] => if c.isDigit then some (c.toNat - 48) else none
  | c :: rest =>
      if c.isDigit then
        (digitsToNat rest).map (fun n => (c.toNat - 48) * 10 ^ rest.length + n)
      else none

/-- Models the Python call int(s) on the strings the engine feeds it: an
optional sign followed by decimal digits yields a number, anything else
raises ValueError (none here).  Pythons tolerance for surrounding
whitespace and embedded underscores is not exercised by the repository
and is not modelled. -/
def pyInt : List Char → Option Int
  | '-' :: rest => (digitsToNat rest).map (fun n => -(n : Int))
  | '+' :: rest => (digitsToNat rest).map (fun n => (n : Int))
  | s => (digitsToNat s).map (fun n => (n : Int))

/-- models.py line 223: is this Model 13, the increasing-trend model? -/
def model_is_trend (model_id : String) : Bool := model_id == "model13"

/-- Whether evaluating the metric-type flags of models.py lines 226-228
raises ValueError: the id is not model13, starts with "model", and its
remainder is not an int literal.  The int() call sits outside the
per-hospital try/except, so this exception escapes the function. -/
def model_raises (model_id : String) : Bool :=
  !model_is_trend model_id && startsWithModel model_id &&
    (pyInt (modelSuffix model_id)).isNone

/-- Does the parsed model number satisfy the given test (false when the
id does not start with "model" or does not parse)? -/
def modelNumTest (model_id : String) (p : Int → Bool) : Bool :=
  startsWithModel model_id &&
    (match pyInt (modelSuffix model_id) with
     | some n => p n
     | none => false)

/-- models.py line 226: deaths-based metric (models 1-4). -/
def model_is_deaths (model_id : String) : Bool :=
  !model_is_trend model_id && modelNumTest model_id (fun n => decide (n ≤ 4))

/-- models.py line 227: SMR-based metric (models 5-8). -/
def model_is_smr (model_id : String) : Bool :=
  !model_is_trend model_id &&
    modelNumTest model_id (fun n => decide (5 ≤ n) && decide (n ≤ 8))

/-- models.py line 228: percentage-based metric (models 9-12). -/
def model_is_percentage (model_id : String) : Bool :=
  !model_is_trend model_id && modelNumTest model_id (fun n => decide (9 ≤ n))

/-- models.py line 220: 3-month lookback for the odd models, 6 months
otherwise. -/
def model_months_lookback (model_id : String) : Nat :=
  if ["model1", "model3", "model5", "model7", "model9", "model11"].contains model_id
  then 3 else 6

/-- models.py line 231: historical-maximum threshold models. -/
def model_use_highest (model_id : String) : Bool :=
  ["model1", "model2", "model5", "model6", "model9", "model10"].contains model_id

/-- models.py line 232: MEAN+1SD threshold models. -/
def model_use_avg_1sd (model_id : String) : Bool :=
  ["model3", "model4", "model7", "model8", "model11", "model12"].contains model_id

/-- models.py lines 243-275: the live-aggregate cache is filled from
BigQuery only when the Historical Store has no row at all for the
current month (the start/end dates of the check restrict exactly to the
current (year, month): database.py lines 149-155); otherwise it stays
empty. -/
def live_map_used (inp : EvalInput) : List LiveRow :=
  if (inp.db.filter (fun r =>
        r.year == inp.currentYear && r.month == inp.currentMonth)).isEmpty
  then inp.live else []

/-- The per-run configuration distilled from the model id and the run
inputs before the per-hospital loop of calculate_model_results. -/
structure RunCfg where
  cy : Int
  cm : Int
  months_lookback : Nat
  is_trend : Bool
  is_deaths : Bool
  is_smr : Bool
  is_percentage : Bool
  use_highest : Bool
  use_avg_1sd : Bool
  apply_filter : Bool
  live_map : List LiveRow
  expected : List (String × ℚ)
deriving DecidableEq, Repr

/-- The configuration calculate_model_results uses for a given model id:
flag computation of models.py lines 219-239 plus the two prefetch caches
(the expected-percentage dict is only fetched for SMR models). -/
def mkCfg (inp : EvalInput) (model_id : String) (apply_filter : Bool) : RunCfg :=
  { cy := inp.currentYear
    cm := inp.currentMonth
    months_lookback := model_months_lookback model_id
    is_trend := model_is_trend model_id
    is_deaths := model_is_deaths model_id
    is_smr := model_is_smr model_id
    is_percentage := model_is_percentage model_id
    use_highest := model_use_highest model_id
    use_avg_1sd := model_use_avg_1sd model_id
    apply_filter := apply_filter
    live_map := live_map_used inp
    expected := if model_is_smr model_id then inp.expected else [] }

/-- models.py lines 313-333: current-period figures come from the first
Historical Store row of the current month when one exists, else from
the live-aggregate cache, else they are zero. -/
def resolveCurrentFigures (current_month_data : List Row)
    (live_map : List LiveRow) (hospital : String) : Int × ℚ :=
  match current_month_data.head? with
  | some r => (r.deaths, r.mortality_rate)
  | none =>
      match liveLookup live_map hospital with
      | some l => (l.deaths, l.mortality_rate)
      | none => (0, 0)

/-- models.py lines 338-362 (get_mortality_for_month inside Model 13):
the current months rate may fall back to the live cache; any other
months rate comes from the store alone, defaulting to 0. -/
def get_mortality_for_month (all_data : List Row) (live_map : List LiveRow)
    (hospital : String) (cy cm y m : Int) : ℚ :=
  if y == cy && m == cm then
    match (all_data.filter (fun r => r.year == y && r.month == m)).head? with
    | some r => r.mortality_rate
    | none =>
        match liveLookup live_map hospital with
        | some l => l.mortality_rate
        | none => 0
  else
    match (all_data.filter (fun r => r.year == y && r.month == m)).head? with
    | some r => r.mortality_rate
    | none => 0

/-- The exclusion rule of models.py lines 389-399 and 534-544: suppress
when the previous months death count is known and the increase of the
current count over it is at most 2; never suppress when it is unknown. -/
def exclusionSuppresses (all_data : List Row) (cy cm : Int)
    (current_deaths : Int) : Bool :=
  match get_previous_month_deaths all_data cy cm with
  | some pd => decide (current_deaths - pd ≤ 2)
  | none => false

/-- models.py lines 551-553: overwrite the last entry of the six-month
series with the resolved current-month rate. -/
def overrideLast (l : List (String × ℚ)) (v : ℚ) : List (String × ℚ) :=
  match l.getLast? with
  | some p => l.dropLast ++ [(p.1, v)]
  | none => []

/-- The three mortality rates Model 13 examines, oldest first: the rate
two months back, the previous months rate, and the current months rate
(models.py lines 364-380). -/
def trendRates (all_data : List Row) (live_map : List LiveRow)
    (hospital : String) (cy cm : Int) : ℚ × ℚ × ℚ :=
  let p := prevPeriod cy cm
  let pp := prevPeriod p.1 p.2
  (get_mortality_for_month all_data live_map hospital cy cm pp.1 pp.2,
   get_mortality_for_month all_data live_map hospital cy cm p.1 p.2,
   get_mortality_for_month all_data live_map hospital cy cm cy cm)

/-- The alert record built by Model 13 (models.py lines 404-421); its
threshold is the earliest of the three rates and its smr key explicitly
holds None. -/
def trendResult (all_data : List Row) (cfg : RunCfg) (hospital : String)
    (current_deaths : Int) (current_mortality_rate : ℚ) : AlertResult :=
  let p := prevPeriod cfg.cy cfg.cm
  let pp := prevPeriod p.1 p.2
  let tr := trendRates all_data cfg.live_map hospital cfg.cy cfg.cm
  { hospital_name := hospital
    current_period := periodStr cfg.cy cfg.cm
    deaths := current_deaths
    mortality_rate := current_mortality_rate
    threshold := .exact tr.1
    smr := some none
    status := "Alert"
    last_6_months_mortality := get_last_6_months_mortality all_data cfg.cy cfg.cm
    trend_info := some { month1 := periodStr pp.1 pp.2
                         month2 := periodStr p.1 p.2
                         month3 := periodStr cfg.cy cfg.cm
                         rate1 := tr.1
                         rate2 := tr.2.1
                         rate3 := tr.2.2 } }

/-- The Model 13 branch of the per-hospital loop (models.py lines
336-423): alert when the three consecutive rates ending at the current
month strictly increase, subject to the optional exclusion rule.  When
the trend condition fails the source falls through to the models 1-12
code, but with every metric flag false that code appends nothing, so
returning none here is observationally identical. -/
def trendBranch (all_data : List Row) (cfg : RunCfg) (hospital : String)
    (current_deaths : Int) (current_mortality_rate : ℚ) : Option AlertResult :=
  let tr := trendRates all_data cfg.live_map hospital cfg.cy cfg.cm
  if tr.2.1 < tr.2.2 ∧ tr.1 < tr.2.1 then
    if cfg.apply_filter && exclusionSuppresses all_data cfg.cy cfg.cm current_deaths then
      none
    else
      some (trendResult all_data cfg hospital current_deaths current_mortality_rate)
  else none

/-- The threshold and compared value of models.py lines 465-519, one
case per metric and threshold statistic; none models the continue
statements of the unmatched branches. -/
def thresholdAndValue (cfg : RunCfg) (recent_data : List Row)
    (current_deaths : Int) (current_mortality_rate : ℚ)
    (smr_value : Option ℚ) (recent_smr : List ℚ) : Option (BVal × ℚ) :=
  if cfg.is_deaths then
    if cfg.use_highest then
      some (.exact (listMaxD (recent_data.map (fun r => (r.deaths : ℚ))) 0), (current_deaths : ℚ))
    else if cfg.use_avg_1sd then
      some (.meanPlusStd (recent_data.map (fun r => (r.deaths : ℚ))), (current_deaths : ℚ))
    else none
  else if cfg.is_smr then
    if recent_smr.isEmpty then none
    else if cfg.use_highest then
      match smr_value with
      | some v => some (.exact (listMaxD recent_smr 0), v)
      | none => none
    else if cfg.use_avg_1sd then
      match smr_value with
      | some v => some (.meanPlusStd recent_smr, v)
      | none => none
    else none
  else if cfg.is_percentage then
    if cfg.use_highest then
      some (.exact (listMaxD (recent_data.map (fun r => r.mortality_rate)) 0), current_mortality_rate)
    else if cfg.use_avg_1sd then
      some (.meanPlusStd (recent_data.map (fun r => r.mortality_rate)), current_mortality_rate)
    else none
  else none

/-- models.py lines 434-442: the period excluded from the lookback
window is the current month when the hospital has a row for it in the
store, and the previous month otherwise. -/
def exclude_period (current_month_data : List Row) (cy cm : Int) : Int × Int :=
  if current_month_data.isEmpty then prevPeriod cy cm else (cy, cm)

/-- The alert record built by models 1-12 (models.py lines 555-566); the
smr key is attached only for SMR models. -/
def standardResult (all_data : List Row) (cfg : RunCfg) (hospital : String)
    (current_deaths : Int) (current_mortality_rate : ℚ)
    (threshold : BVal) (smr_value : Option ℚ) : AlertResult :=
  { hospital_name := hospital
    current_period := periodStr cfg.cy cfg.cm
    deaths := current_deaths
    mortality_rate := current_mortality_rate
    threshold := threshold
    smr := if cfg.is_smr then some smr_value else none
    status := "Alert"
    last_6_months_mortality :=
      overrideLast (get_last_6_months_mortality all_data cfg.cy cfg.cm) current_mortality_rate
    trend_info := none }

/-- models.py line 444: the lookback window actually used for the
threshold, computed over the sorted history with the exclusion of
exclude_period. -/
def recentOf (all_data_sorted : List Row) (cfg : RunCfg)
    (current_month_data : List Row) : List Row :=
  get_recent_months_data all_data_sorted cfg.months_lookback
    (some (exclude_period current_month_data cfg.cy cfg.cm).1)
    (some (exclude_period current_month_data cfg.cy cfg.cm).2)

/-- models.py lines 453-457: the current-month SMR, present exactly when
the model family is SMR and the hospital has an expected percentage. -/
def smrValueOf (cfg : RunCfg) (hospital : String)
    (current_mortality_rate : ℚ) : Option ℚ :=
  if cfg.is_smr then
    (expectedLookup cfg.expected hospital).map (fun ev => current_mortality_rate / ev)
  else none

/-- models.py lines 458-461: the smr column of the lookback window. -/
def recentSmrOf (cfg : RunCfg) (hospital : String) (recent_data : List Row) : List ℚ :=
  if cfg.is_smr then
    match expectedLookup cfg.expected hospital with
    | some ev => calculate_smr_vals recent_data ev
    | none => []
  else []

/-- The models 1-12 part of the per-hospital loop (models.py lines
425-568): pick the lookback window (excluding the current month when the
hospital has a row for it, the previous month otherwise), derive the
threshold, compare strictly, optionally apply the exclusion rule, and
emit the alert. -/
def standardBranch (all_data all_data_sorted : List Row) (cfg : RunCfg)
    (hospital : String) (current_month_data : List Row)
    (current_deaths : Int) (current_mortality_rate : ℚ) : Option AlertResult :=
  let recent_data := recentOf all_data_sorted cfg current_month_data
  if recent_data.isEmpty then none
  else if cfg.is_smr && !expectedValid cfg.expected hospital then none
  else
    let smr_value := smrValueOf cfg hospital current_mortality_rate
    let recent_smr := recentSmrOf cfg hospital recent_data
    match thresholdAndValue cfg recent_data current_deaths current_mortality_rate smr_value recent_smr with
    | none => none
    | some tv =>
        if tv.1.ltB tv.2 then
          if cfg.is_smr && smr_value.isNone then none
          else if cfg.apply_filter && exclusionSuppresses all_data cfg.cy cfg.cm current_deaths then none
          else
            some (standardResult all_data cfg hospital current_deaths current_mortality_rate tv.1 smr_value)
        else none

/-- models.py lines 302-305: the history rows of the hospital for the
current (year, month). -/
def currentMonthRows (db : List Row) (cfg : RunCfg) (hospital : String) : List Row :=
  (get_monthly_data db hospital).filter (fun r => r.year == cfg.cy && r.month == cfg.cm)

/-- The resolved current-period figures of one hospital within a run. -/
def resolveOf (db : List Row) (cfg : RunCfg) (hospital : String) : Int × ℚ :=
  resolveCurrentFigures (currentMonthRows db cfg hospital) cfg.live_map hospital

/-- One iteration of the per-hospital loop of calculate_model_results
(models.py lines 280-568), returning the alert the hospital contributes,
if any. -/
def processHospital (db : List Row) (cfg : RunCfg) (hospital : String) :
    Option AlertResult :=
  let all_data := get_monthly_data db hospital
  if all_data.isEmpty then none
  else
    let dr := resolveOf db cfg hospital
    if cfg.is_trend then
      trendBranch all_data cfg hospital dr.1 dr.2
    else
      standardBranch all_data (sortDesc all_data) cfg hospital
        (currentMonthRows db cfg hospital) dr.1 dr.2

/-- The sort key used for SMR-ranked results, x.get(smr-key, 0)
(models.py line 580); every result reaching it holds a float smr. -/
def smrKey (r : AlertResult) : ℚ :=
  match r.smr with
  | some (some v) => v
  | _ => 0

/-- models.py lines 574-584: rank surviving alerts descending by the
model familys designated metric, stably. -/
def rankResults (is_trend is_smr is_percentage : Bool)
    (results : List AlertResult) : List AlertResult :=
  if is_trend then
    sortByB (fun a b => decide (b.mortality_rate ≤ a.mortality_rate)) results
  else if is_smr then
    sortByB (fun a b => decide (smrKey b ≤ smrKey a)) results
  else if is_percentage then
    sortByB (fun a b => decide (b.mortality_rate ≤ a.mortality_rate)) results
  else
    sortByB (fun a b => decide (b.deaths ≤ a.deaths)) results

/-- models.py calculate_model_results: evaluate every hospital of the
roster against one model and return the ranked alerts, or the ValueError
that the ad-hoc model-number parsing can raise. -/
def calculate_model_results (inp : EvalInput) (model_id : String)
    (apply_death_increase_filter : Bool) : Except String (List AlertResult) :=
  if model_raises model_id then
    .error "ValueError: invalid literal for int() with base 10"
  else
    let cfg := mkCfg inp model_id apply_death_increase_filter
    .ok (rankResults cfg.is_trend cfg.is_smr cfg.is_percentage
          ((get_all_hospitals inp.db).filterMap (processHospital inp.db cfg)))

instance {ε α : Type} [DecidableEq ε] [DecidableEq α] : DecidableEq (Except ε α) :=
  fun a b =>
    match a, b with
    | .ok x, .ok y => decidable_of_iff (x = y) (by simp)
    | .error x, .error y => decidable_of_iff (x = y) (by simp)
    | .ok _, .error _ => isFalse (by simp)
    | .error _, .ok _ => isFalse (by simp)

/-- Round half to even at the unit, the rounding that numpy applies; the
fractional comparison is carried out on exact rationals. -/
def roundHalfEven (x : ℚ) : ℤ :=
  let n := ⌊x⌋
  if x - n < 1 / 2 then n
  else if 1 / 2 < x - n then n + 1
  else if Even n then n else n + 1

/-- Python/numpy round(v, 2): round half to even at two decimals. -/
def round2 (x : ℚ) : ℚ := (roundHalfEven (100 * x) : ℚ) / 100

/-- The mortality rate written by the BigQuery-backed sync paths
(bigquery_queries.py lines 44, 82, 424, 547): deaths over patients as a
percentage, rounded to two decimals. -/
def bq_mortality_rate (deaths total_patients : Int) : ℚ :=
  round2 ((deaths : ℚ) / (total_patients : ℚ) * 100)

/-- The mortality rate written by update_monthly_aggregation
(daily_update.py line 130): the raw percentage, with no rounding. -/
def daily_update_mortality_rate (deaths total_patients : Int) : ℚ :=
  if 0 < total_patients then (deaths : ℚ) / (total_patients : ℚ) * 100 else 0

theorem perm_insertByB (le : α → α → Bool) (a : α) (l : List α) :
    (insertByB le a l).Perm (a :: l) := by
  induction l with
  | nil => simp [insertByB]
  | cons b l ih =>
      by_cases h : le a b = true
      · simp [insertByB, h]
      · simp only [insertByB, if_neg h]
        exact ((ih.cons b).trans (List.Perm.swap a b l)).symm.symm

theorem perm_sortByB (le : α → α → Bool) (l : List α) :
    (sortByB le l).Perm l := by
  induction l with
  | nil => simp [sortByB]
  | cons a l ih => exact (perm_insertByB le a (sortByB le l)).trans (ih.cons a)

theorem le_foldl_max (l : List ℚ) (b : ℚ) :
    b ≤ l.foldl max b ∧ ∀ x ∈ l, x ≤ l.foldl max b := by
  induction l generalizing b with
  | nil => simp
  | cons a l ih =>
      simp only [List.foldl_cons, List.mem_cons]
      refine ⟨le_trans (le_max_left b a) (ih (max b a)).1, ?_⟩
      intro x hx
      rcases hx with h | h
      · rw [h]
        exact le_trans (le_max_right b a) (ih (max b a)).1
      · exact (ih (max b a)).2 x h

theorem le_listMaxD (xs : List ℚ) (d x : ℚ) (hx : x ∈ xs) : x ≤ listMaxD xs d := by
  cases xs with
  | nil => cases hx
  | cons a rest =>
      rcases List.mem_cons.mp hx with h | h
      · exact h ▸ (le_foldl_max rest a).1
      · exact (le_foldl_max rest a).2 x h

theorem listMaxD_nonneg (xs : List ℚ) (d : ℚ) (hne : xs ≠ [])
    (h : ∀ x ∈ xs, 0 ≤ x) : 0 ≤ listMaxD xs d := by
  cases xs with
  | nil => exact absurd rfl hne
  | cons a rest =>
      exact le_trans (h a (List.mem_cons_self a rest)) (le_listMaxD _ d a (List.mem_cons_self a rest))

theorem sampleMean_nonneg (xs : List ℚ) (h : ∀ x ∈ xs, 0 ≤ x) :
    0 ≤ sampleMean xs := by
  unfold sampleMean
  exact div_nonneg (List.sum_nonneg h) (by positivity)

theorem BVal.ltB_iff (t : BVal) (v : ℚ) : t.ltB v = true ↔ t.val < (v : ℝ) := by
  cases t with
  | exact q => simp [BVal.ltB, BVal.val]
  | meanPlusStd xs =>
      simp only [BVal.ltB, BVal.val, Bool.and_eq_true, Bool.or_eq_true, decide_eq_true_eq]
      by_cases h : xs.length ≤ 1
      · simp only [h, if_true, true_or, and_true, add_zero]
        constructor <;> intro hh <;> exact_mod_cast hh
      · simp only [h, if_false, false_or]
        constructor
        · rintro ⟨h1, h2⟩
          have hy : (0:ℝ) < (v : ℝ) - (sampleMean xs : ℝ) := by
            have : (sampleMean xs : ℝ) < (v : ℝ) := by exact_mod_cast h1
            linarith
          have h2r : ((sampleVar xs : ℚ) : ℝ) < ((v : ℝ) - (sampleMean xs : ℝ)) ^ 2 := by
            have := h2
            have hc : ((sampleVar xs : ℚ) : ℝ) <
                (((v - sampleMean xs) * (v - sampleMean xs) : ℚ) : ℝ) := by exact_mod_cast h2
            calc ((sampleVar xs : ℚ) : ℝ) < (((v - sampleMean xs) * (v - sampleMean xs) : ℚ) : ℝ) := hc
              _ = ((v : ℝ) - (sampleMean xs : ℝ)) ^ 2 := by push_cast; ring
          have := (Real.sqrt_lt' hy).mpr h2r
          linarith
        · intro h3
          have h0 : (0:ℝ) ≤ Real.sqrt ((sampleVar xs : ℚ) : ℝ) := Real.sqrt_nonneg _
          have hm : (sampleMean xs : ℝ) < (v : ℝ) := by linarith
          have hy : (0:ℝ) < (v : ℝ) - (sampleMean xs : ℝ) := by linarith
          have hs : Real.sqrt ((sampleVar xs : ℚ) : ℝ) < (v : ℝ) - (sampleMean xs : ℝ) := by
            linarith
          have := (Real.sqrt_lt' hy).mp hs
          constructor
          · exact_mod_cast hm
          · have : ((sampleVar xs : ℚ) : ℝ) < (((v - sampleMean xs) * (v - sampleMean xs) : ℚ) : ℝ) := by
              calc ((sampleVar xs : ℚ) : ℝ) < ((v : ℝ) - (sampleMean xs : ℝ)) ^ 2 := this
                _ = (((v - sampleMean xs) * (v - sampleMean xs) : ℚ) : ℝ) := by push_cast; ring
            exact_mod_cast this

theorem BVal.val_meanPlusStd_nonneg (xs : List ℚ) (h : ∀ x ∈ xs, 0 ≤ x) :
    0 ≤ (BVal.meanPlusStd xs).val := by
  have hm : (0:ℝ) ≤ (sampleMean xs : ℝ) := by exact_mod_cast sampleMean_nonneg xs h
  unfold BVal.val
  by_cases hl : xs.length ≤ 1
  · simp [hl, hm]
  · simp only [if_neg hl]
    have := Real.sqrt_nonneg ((sampleVar xs : ℚ) : ℝ)
    linarith

theorem BVal.ltB_zero_of_exact_nonneg (q : ℚ) (h : 0 ≤ q) :
    (BVal.exact q).ltB 0 = false := by
  simp [BVal.ltB, not_lt.mpr h]

theorem BVal.ltB_zero_of_mean_nonneg (xs : List ℚ) (h : ∀ x ∈ xs, 0 ≤ x) :
    (BVal.meanPlusStd xs).ltB 0 = false := by
  have := sampleMean_nonneg xs h
  simp [BVal.ltB, not_lt.mpr this]

theorem trendBranch_some_iff (all_data : List Row) (cfg : RunCfg) (hospital : String)
    (cd : Int) (cmr : ℚ) (r : AlertResult) :
    trendBranch all_data cfg hospital cd cmr = some r ↔
      ((trendRates all_data cfg.live_map hospital cfg.cy cfg.cm).2.1 <
          (trendRates all_data cfg.live_map hospital cfg.cy cfg.cm).2.2 ∧
        (trendRates all_data cfg.live_map hospital cfg.cy cfg.cm).1 <
          (trendRates all_data cfg.live_map hospital cfg.cy cfg.cm).2.1) ∧
      (cfg.apply_filter && exclusionSuppresses all_data cfg.cy cfg.cm cd) = false ∧
      r = trendResult all_data cfg hospital cd cmr := by
  simp only [trendBranch]
  by_cases h1 : (trendRates all_data cfg.live_map hospital cfg.cy cfg.cm).2.1 <
      (trendRates all_data cfg.live_map hospital cfg.cy cfg.cm).2.2 ∧
      (trendRates all_data cfg.live_map hospital cfg.cy cfg.cm).1 <
      (trendRates all_data cfg.live_map hospital cfg.cy cfg.cm).2.1
  · rw [if_pos h1]
    by_cases h2 : (cfg.apply_filter && exclusionSuppresses all_data cfg.cy cfg.cm cd) = true
    · simp [h2]
    · rw [if_neg h2]
      simp only [Option.some.injEq]
      constructor
      · intro h
        exact ⟨h1, Bool.eq_false_iff.mpr h2, h.symm⟩
      · rintro ⟨-, -, hr⟩
        exact hr.symm
  · rw [if_neg h1]
    constructor
    · intro h
      exact Option.noConfusion h
    · intro h
      exact absurd h.1 h1

theorem standardBranch_some_iff (all_data all_data_sorted : List Row) (cfg : RunCfg)
    (hospital : String) (cmd : List Row) (cd : Int) (cmr : ℚ) (r : AlertResult) :
    standardBranch all_data all_data_sorted cfg hospital cmd cd cmr = some r ↔
      ∃ tv : BVal × ℚ,
        (recentOf all_data_sorted cfg cmd).isEmpty = false ∧
        (cfg.is_smr && !expectedValid cfg.expected hospital) = false ∧
        thresholdAndValue cfg (recentOf all_data_sorted cfg cmd) cd cmr
          (smrValueOf cfg hospital cmr)
          (recentSmrOf cfg hospital (recentOf all_data_sorted cfg cmd)) = some tv ∧
        tv.1.ltB tv.2 = true ∧
        (cfg.is_smr && (smrValueOf cfg hospital cmr).isNone) = false ∧
        (cfg.apply_filter && exclusionSuppresses all_data cfg.cy cfg.cm cd) = false ∧
        r = standardResult all_data cfg hospital cd cmr tv.1 (smrValueOf cfg hospital cmr) := by
  simp only [standardBranch]
  by_cases h1 : (recentOf all_data_sorted cfg cmd).isEmpty
  · simp [h1]
  · rw [if_neg h1]
    by_cases h2 : (cfg.is_smr && !expectedValid cfg.expected hospital) = true
    · simp [h2, Bool.not_eq_false]
    · rw [if_neg h2]
      cases htv : thresholdAndValue cfg (recentOf all_data_sorted cfg cmd) cd cmr
          (smrValueOf cfg hospital cmr)
          (recentSmrOf cfg hospital (recentOf all_data_sorted cfg cmd)) with
      | none => simp [htv, Bool.eq_false_iff.mpr h1, Bool.eq_false_iff.mpr h2]
      | some tv =>
          simp only [htv]
          by_cases h3 : tv.1.ltB tv.2
          · rw [if_pos h3]
            by_cases h4 : (cfg.is_smr && (smrValueOf cfg hospital cmr).isNone) = true
            · simp [h4, htv, Bool.eq_false_iff.mpr h1, Bool.eq_false_iff.mpr h2]
            · rw [if_neg h4]
              by_cases h5 : (cfg.apply_filter && exclusionSuppresses all_data cfg.cy cfg.cm cd) = true
              · simp [h5, htv, Bool.eq_false_iff.mpr h1, Bool.eq_false_iff.mpr h2]
              · rw [if_neg h5]
                simp only [Option.some.injEq]
                constructor
                · intro h
                  exact ⟨tv, Bool.eq_false_iff.mpr h1, Bool.eq_false_iff.mpr h2, rfl, h3,
                    Bool.eq_false_iff.mpr h4, Bool.eq_false_iff.mpr h5, h.symm⟩
                · rintro ⟨tv2, -, -, htv2, -, -, -, hr⟩
                  rw [← htv2] at hr
                  exact hr.symm
          · rw [if_neg h3]
            constructor
            · intro h
              exact Option.noConfusion h
            · rintro ⟨tv2, -, -, htv2, h3b, -, -, -⟩
              rw [Option.some.inj htv2] at h3
              exact absurd h3b h3

theorem processHospital_some_iff (db : List Row) (cfg : RunCfg) (hospital : String)
    (r : AlertResult) :
    processHospital db cfg hospital = some r ↔
      (get_monthly_data db hospital).isEmpty = false ∧
      ((cfg.is_trend = true ∧
          trendBranch (get_monthly_data db hospital) cfg hospital
            (resolveOf db cfg hospital).1 (resolveOf db cfg hospital).2 = some r) ∨
        (cfg.is_trend = false ∧
          standardBranch (get_monthly_data db hospital) (sortDesc (get_monthly_data db hospital))
            cfg hospital (currentMonthRows db cfg hospital)
            (resolveOf db cfg hospital).1 (resolveOf db cfg hospital).2 = some r)) := by
  simp only [processHospital]
  by_cases h : (get_monthly_data db hospital).isEmpty
  · simp [h]
  · rw [if_neg h]
    by_cases htr : cfg.is_trend = true
    · simp [htr, Bool.eq_false_iff.mpr h]
    · simp [htr, Bool.eq_false_iff.mpr h, Bool.eq_false_iff.mpr htr]

theorem processHospital_name (db : List Row) (cfg : RunCfg) (hospital : String)
    (r : AlertResult) (h : processHospital db cfg hospital = some r) :
    r.hospital_name = hospital := by
  rcases (processHospital_some_iff db cfg hospital r).mp h with ⟨-, h2 | h2⟩
  · rcases (trendBranch_some_iff _ _ _ _ _ _).mp h2.2 with ⟨-, -, hr⟩
    rw [hr]
    rfl
  · rcases (standardBranch_some_iff _ _ _ _ _ _ _ _).mp h2.2 with ⟨tv, -, -, -, -, -, -, hr⟩
    rw [hr]
    rfl

theorem processHospital_figures (db : List Row) (cfg : RunCfg) (hospital : String)
    (r : AlertResult) (h : processHospital db cfg hospital = some r) :
    r.deaths = (resolveOf db cfg hospital).1 ∧
    r.mortality_rate = (resolveOf db cfg hospital).2 ∧
    r.status = "Alert" := by
  rcases (processHospital_some_iff db cfg hospital r).mp h with ⟨-, h2 | h2⟩
  · rcases (trendBranch_some_iff _ _ _ _ _ _).mp h2.2 with ⟨-, -, hr⟩
    rw [hr]
    exact ⟨rfl, rfl, rfl⟩
  · rcases (standardBranch_some_iff _ _ _ _ _ _ _ _).mp h2.2 with ⟨tv, -, -, -, -, -, -, hr⟩
    rw [hr]
    exact ⟨rfl, rfl, rfl⟩

theorem mem_rankResults (a b c : Bool) (l : List AlertResult) (x : AlertResult) :
    x ∈ rankResults a b c l ↔ x ∈ l := by
  unfold rankResults
  split_ifs <;> exact mem_sortByB _ _ _

theorem calculate_ok_no_raise (inp : EvalInput) (mid : String) (filt : Bool)
    (rs : List AlertResult) (hok : calculate_model_results inp mid filt = .ok rs) :
    model_raises mid = false ∧
    rs = rankResults (model_is_trend mid) (model_is_smr mid) (model_is_percentage mid)
      ((get_all_hospitals inp.db).filterMap (processHospital inp.db (mkCfg inp mid filt))) := by
  unfold calculate_model_results at hok
  by_cases hrz : model_raises mid = true
  · rw [if_pos hrz] at hok
    exact absurd hok (by simp)
  · rw [if_neg hrz] at hok
    refine ⟨Bool.eq_false_iff.mpr hrz, ?_⟩
    have := Except.ok.inj hok
    simp only [mkCfg] at this
    rw [← this]
    rfl

theorem mem_calculate_iff (inp : EvalInput) (mid : String) (filt : Bool)
    (rs : List AlertResult) (hok : calculate_model_results inp mid filt = .ok rs)
    (r : AlertResult) :
    r ∈ rs ↔ r.hospital_name ∈ get_all_hospitals inp.db ∧
      processHospital inp.db (mkCfg inp mid filt) r.hospital_name = some r := by
  rcases calculate_ok_no_raise inp mid filt rs hok with ⟨-, hrs⟩
  rw [hrs, mem_rankResults]
  constructor
  · intro hmem
    rcases List.mem_filterMap.mp hmem with ⟨h, hh, hph⟩
    have hn := processHospital_name _ _ _ _ hph
    rw [← hn] at hh
    rw [← hn] at hph
    exact ⟨hh, hph⟩
  · intro hc
    exact List.mem_filterMap.mpr ⟨r.hospital_name, hc.1, hc.2⟩

/-- A history row of the concrete hospital A used in concrete runs:
month m of 2025 with d deaths and an integral mortality rate. -/
def wRowA (m d : Int) : Row :=
  { hospital_name := "A", year := 2025, month := m, total_patients := 100,
    deaths := d, mortality_rate := (d : ℚ) }

/-- Concrete run input: hospital A has store rows for 2025-01..04, no
current-month row, and a live-aggregate entry for 2025-05. -/
def wInpA : EvalInput :=
  { db := [wRowA 1 1, wRowA 2 2, wRowA 3 3, wRowA 4 4]
    live := [{ hospital_name := "A", total_patients := 100, deaths := 10, mortality_rate := 10 }]
    expected := []
    currentYear := 2025
    currentMonth := 5 }

/-- Concrete run input: hospital T has three stored months with strictly
increasing rates 1, 2, 3 ending at the current month 2025-05. -/
def wInpT : EvalInput :=
  { db := [ { hospital_name := "T", year := 2025, month := 3, total_patients := 100, deaths := 5, mortality_rate := 1 }
          , { hospital_name := "T", year := 2025, month := 4, total_patients := 100, deaths := 5, mortality_rate := 2 }
          , { hospital_name := "T", year := 2025, month := 5, total_patients := 100, deaths := 5, mortality_rate := 3 } ]
    live := []
    expected := []
    currentYear := 2025
    currentMonth := 5 }

/-- Concrete run input: hospital S has one past month (1 death) and a
current-month row (5 deaths), so the model3 lookback window holds a
single record. -/
def wInpS : EvalInput :=
  { db := [ { hospital_name := "S", year := 2025, month := 4, total_patients := 100, deaths := 1, mortality_rate := 1 }
          , { hospital_name := "S", year := 2025, month := 5, total_patients := 100, deaths := 5, mortality_rate := 5 } ]
    live := []
    expected := []
    currentYear := 2025
    currentMonth := 5 }

/-- Concrete run input: hospital E alerts under model1 (10 deaths
against a window maximum of 9) but the month-over-month increase is 1,
so the exclusion filter suppresses the alert. -/
def wInpE : EvalInput :=
  { db := [ { hospital_name := "E", year := 2025, month := 4, total_patients := 100, deaths := 9, mortality_rate := 9 }
          , { hospital_name := "E", year := 2025, month := 5, total_patients := 100, deaths := 10, mortality_rate := 10 } ]
    live := []
    expected := []
    currentYear := 2025
    currentMonth := 5 }

/-- Concrete run input: hospital X has a current-month store row while
hospital Y has only an older row plus a live-aggregate entry; since the
store holds a current-month row, the live map must stay unused. -/
def wInpX : EvalInput :=
  { db := [ { hospital_name := "X", year := 2025, month := 4, total_patients := 100, deaths := 1, mortality_rate := 1 }
          , { hospital_name := "X", year := 2025, month := 5, total_patients := 100, deaths := 9, mortality_rate := 9 }
          , { hospital_name := "Y", year := 2025, month := 4, total_patients := 100, deaths := 2, mortality_rate := 2 } ]
    live := [{ hospital_name := "Y", total_patients := 100, deaths := 7, mortality_rate := 7 }]
    expected := []
    currentYear := 2025
    currentMonth := 5 }

/-- The alert hospital A produces under model1 in wInpA. -/
def wResA : AlertResult :=
  { hospital_name := "A", current_period := "2025-05", deaths := 10, mortality_rate := 10,
    threshold := .exact 3, smr := none, status := "Alert",
    last_6_months_mortality :=
      [("2024-12", 0), ("2025-01", 1), ("2025-02", 2), ("2025-03", 3), ("2025-04", 4), ("2025-05", 10)],
    trend_info := none }

/-- The alert hospital T produces under model13 in wInpT. -/
def wResT : AlertResult :=
  { hospital_name := "T", current_period := "2025-05", deaths := 5, mortality_rate := 3,
    threshold := .exact 1, smr := some none, status := "Alert",
    last_6_months_mortality :=
      [("2024-12", 0), ("2025-01", 0), ("2025-02", 0), ("2025-03", 1), ("2025-04", 2), ("2025-05", 3)],
    trend_info := some { month1 := "2025-03", month2 := "2025-04", month3 := "2025-05",
                         rate1 := 1, rate2 := 2, rate3 := 3 } }

/-- The alert hospital S produces under model3 in wInpS. -/
def wResS : AlertResult :=
  { hospital_name := "S", current_period := "2025-05", deaths := 5, mortality_rate := 5,
    threshold := .meanPlusStd [1], smr := none, status := "Alert",
    last_6_months_mortality :=
      [("2024-12", 0), ("2025-01", 0), ("2025-02", 0), ("2025-03", 0), ("2025-04", 1), ("2025-05", 5)],
    trend_info := none }

/-- The alert hospital E produces under model1 in wInpE when the
exclusion filter is off. -/
def wResE : AlertResult :=
  { hospital_name := "E", current_period := "2025-05", deaths := 10, mortality_rate := 10,
    threshold := .exact 9, smr := none, status := "Alert",
    last_6_months_mortality :=
      [("2024-12", 0), ("2025-01", 0), ("2025-02", 0), ("2025-03", 0), ("2025-04", 9), ("2025-05", 10)],
    trend_info := none }

theorem contains_true_iff (l : List String) (a : String) :
    l.contains a = true ↔ a ∈ l := by
  simp [List.contains]

theorem mem_get_monthly_data (db : List Row) (hospital : String) (w : Row)
    (hw : w ∈ get_monthly_data db hospital) :
    w ∈ db ∧ w.hospital_name = hospital := by
  unfold get_monthly_data at hw
  rw [mem_sortByB] at hw
  rcases List.mem_filter.mp hw with ⟨h1, h2⟩
  exact ⟨h1, by simpa using h2⟩

theorem mem_roster_of_history (db : List Row) (h : String)
    (hne : (get_monthly_data db h).isEmpty = false) :
    h ∈ get_all_hospitals db := by
  unfold get_all_hospitals
  rw [mem_sortByB]
  unfold get_monthly_data at hne
  have hfil : db.filter (fun r => r.hospital_name == h) ≠ [] := by
    intro hnil
    rw [hnil] at hne
    simp [sortByB] at hne
  rcases List.exists_mem_of_ne_nil _ hfil with ⟨w, hw⟩
  rcases List.mem_filter.mp hw with ⟨h1, h2⟩
  have hwh : w.hospital_name = h := by simpa using h2
  rw [← hwh]
  exact List.mem_dedup.mpr (List.mem_map_of_mem (fun r => r.hospital_name) h1)

theorem mem_get_recent (monthly_data : List Row) (months : Nat) (ey em : Int)
    (w : Row) (hw : w ∈ get_recent_months_data monthly_data months (some ey) (some em)) :
    w ∈ monthly_data ∧ ¬(w.year = ey ∧ w.month = em) := by
  unfold get_recent_months_data at hw
  by_cases h0 : monthly_data.isEmpty
  · rw [if_pos h0] at hw
    rw [List.isEmpty_iff] at h0
    rw [h0] at hw
    cases hw
  · rw [if_neg h0] at hw
    simp only at hw
    by_cases h1 : (monthly_data.filter (fun r => !(r.year == ey && r.month == em))).isEmpty
    · rw [if_pos h1] at hw
      cases hw
    · rw [if_neg h1] at hw
      by_cases h2 : ((((sortDesc (monthly_data.filter (fun r => !(r.year == ey && r.month == em)))).map
          (fun r => (r.year, r.month))).eraseDups).take months).isEmpty
      · rw [if_pos h2] at hw
        cases hw
      · rw [if_neg h2] at hw
        have hw2 := List.mem_filter.mp hw
        have hw3 : w ∈ sortDesc (monthly_data.filter (fun r => !(r.year == ey && r.month == em))) := hw2.1
        unfold sortDesc at hw3
        rw [mem_sortByB] at hw3
        rcases List.mem_filter.mp hw3 with ⟨hm, hneq⟩
        refine ⟨hm, ?_⟩
        intro hc
        rw [hc.1, hc.2] at hneq
        simp at hneq

theorem rankResults_nil (a b c : Bool) : rankResults a b c [] = [] := by
  unfold rankResults
  split_ifs <;> rfl

theorem BVal.val_meanPlusStd_singleton (x : ℚ) :
    (BVal.meanPlusStd [x]).val = (x : ℝ) := by
  have hm : sampleMean [x] = x := by
    unfold sampleMean
    simp
  simp [BVal.val, hm]

theorem mkCfg_cy (inp : EvalInput) (mid : String) (b : Bool) :
    (mkCfg inp mid b).cy = inp.currentYear := rfl

theorem mkCfg_cm (inp : EvalInput) (mid : String) (b : Bool) :
    (mkCfg inp mid b).cm = inp.currentMonth := rfl

theorem mkCfg_live_map (inp : EvalInput) (mid : String) (b : Bool) :
    (mkCfg inp mid b).live_map = live_map_used inp := rfl

theorem mkCfg_is_trend (inp : EvalInput) (mid : String) (b : Bool) :
    (mkCfg inp mid b).is_trend = model_is_trend mid := rfl

theorem mkCfg_is_smr (inp : EvalInput) (mid : String) (b : Bool) :
    (mkCfg inp mid b).is_smr = model_is_smr mid := rfl

theorem mkCfg_is_deaths (inp : EvalInput) (mid : String) (b : Bool) :
    (mkCfg inp mid b).is_deaths = model_is_deaths mid := rfl

theorem mkCfg_is_percentage (inp : EvalInput) (mid : String) (b : Bool) :
    (mkCfg inp mid b).is_percentage = model_is_percentage mid := rfl

theorem mkCfg_apply_filter (inp : EvalInput) (mid : String) (b : Bool) :
    (mkCfg inp mid b).apply_filter = b := rfl

theorem mkCfg_expected (inp : EvalInput) (mid : String) (b : Bool) :
    (mkCfg inp mid b).expected = (if model_is_smr mid then inp.expected else []) := rfl

theorem currentMonthRows_mkCfg (inp : EvalInput) (mid : String) (b : Bool) (h : String) :
    currentMonthRows inp.db (mkCfg inp mid b) h =
      currentMonthRows inp.db (mkCfg inp mid false) h := rfl

theorem resolveOf_mkCfg (inp : EvalInput) (mid : String) (b : Bool) (h : String) :
    resolveOf inp.db (mkCfg inp mid b) h = resolveOf inp.db (mkCfg inp mid false) h := rfl

theorem recentOf_mkCfg (a : List Row) (inp : EvalInput) (mid : String) (b : Bool) (cmd : List Row) :
    recentOf a (mkCfg inp mid b) cmd = recentOf a (mkCfg inp mid false) cmd := rfl

theorem smrValueOf_mkCfg (inp : EvalInput) (mid : String) (b : Bool) (h : String) (q : ℚ) :
    smrValueOf (mkCfg inp mid b) h q = smrValueOf (mkCfg inp mid false) h q := rfl

theorem recentSmrOf_mkCfg (inp : EvalInput) (mid : String) (b : Bool) (h : String) (l : List Row) :
    recentSmrOf (mkCfg inp mid b) h l = recentSmrOf (mkCfg inp mid false) h l := rfl

theorem thresholdAndValue_mkCfg (inp : EvalInput) (mid : String) (b : Bool)
    (l : List Row) (cd : Int) (cmr : ℚ) (sv : Option ℚ) (rsm : List ℚ) :
    thresholdAndValue (mkCfg inp mid b) l cd cmr sv rsm =
      thresholdAndValue (mkCfg inp mid false) l cd cmr sv rsm := rfl

theorem trendResult_mkCfg (a : List Row) (inp : EvalInput) (mid : String) (b : Bool)
    (h : String) (cd : Int) (cmr : ℚ) :
    trendResult a (mkCfg inp mid b) h cd cmr = trendResult a (mkCfg inp mid false) h cd cmr := rfl

theorem standardResult_mkCfg (a : List Row) (inp : EvalInput) (mid : String) (b : Bool)
    (h : String) (cd : Int) (cmr : ℚ) (t : BVal) (sv : Option ℚ) :
    standardResult a (mkCfg inp mid b) h cd cmr t sv =
      standardResult a (mkCfg inp mid false) h cd cmr t sv := rfl

theorem expectedValid_mkCfg (inp : EvalInput) (mid : String) (b : Bool) (h : String) :
    expectedValid (mkCfg inp mid b).expected h = expectedValid (mkCfg inp mid false).expected h := rfl

theorem is_smr_not_deaths (mid : String) (h : model_is_smr mid = true) :
    model_is_deaths mid = false := by
  unfold model_is_smr at h
  unfold model_is_deaths
  rcases Bool.and_eq_true_iff.mp h with ⟨hnt, htest⟩
  unfold modelNumTest at htest ⊢
  rcases Bool.and_eq_true_iff.mp htest with ⟨hsw, hn⟩
  rw [hnt, hsw]
  cases hp : pyInt (modelSuffix mid) with
  | none => rw [hp] at hn; cases hn
  | some n =>
      rw [hp] at hn
      rcases Bool.and_eq_true_iff.mp hn with ⟨h5, -⟩
      have h5b : (5:Int) ≤ n := of_decide_eq_true h5
      simp only [Bool.true_and, Bool.and_eq_false_iff, decide_eq_false_iff_not, not_le]
      omega

theorem is_percentage_not_deaths_smr (mid : String) (h : model_is_percentage mid = true) :
    model_is_deaths mid = false ∧ model_is_smr mid = false := by
  unfold model_is_percentage at h
  unfold model_is_deaths model_is_smr
  rcases Bool.and_eq_true_iff.mp h with ⟨hnt, htest⟩
  unfold modelNumTest at htest ⊢
  rcases Bool.and_eq_true_iff.mp htest with ⟨hsw, hn⟩
  rw [hnt, hsw]
  cases hp : pyInt (modelSuffix mid) with
  | none => rw [hp] at hn; cases hn
  | some n =>
      rw [hp] at hn
      have h9 : (9:Int) ≤ n := of_decide_eq_true hn
      constructor
      · simp only [Bool.true_and, Bool.and_eq_false_iff, decide_eq_false_iff_not, not_le]
        omega
      · simp only [Bool.true_and, Bool.and_eq_false_iff, Bool.and_eq_false_iff,
          decide_eq_false_iff_not, not_le]
        omega

theorem use_avg_not_highest (mid : String) (h : model_use_avg_1sd mid = true) :
    model_use_highest mid = false := by
  unfold model_use_avg_1sd at h
  rw [contains_true_iff] at h
  fin_cases h <;> decide

theorem roundHalfEven_intCast (n : ℤ) : roundHalfEven (n : ℚ) = n := by
  unfold roundHalfEven
  rw [Int.floor_intCast]
  rw [if_pos (by norm_num)]

theorem round2_eq_self_iff (q : ℚ) : round2 q = q ↔ (100 * q).den = 1 := by
  constructor
  · intro h
    unfold round2 at h
    have h2 : (roundHalfEven (100 * q) : ℚ) = 100 * q := by
      field_simp at h
      linarith
    rw [Rat.den_eq_one_iff]
    rw [← h2]
    simp
  · intro h
    rcases (Rat.den_eq_one_iff (100 * q)).mp h with hc
    unfold round2
    rw [← hc, roundHalfEven_intCast, hc]
    field_simp

theorem processHospital_filter_iff (inp : EvalInput) (mid : String) (h : String)
    (r : AlertResult) :
    processHospital inp.db (mkCfg inp mid true) h = some r ↔
      (processHospital inp.db (mkCfg inp mid false) h = some r ∧
        exclusionSuppresses (get_monthly_data inp.db h) inp.currentYear inp.currentMonth
          (resolveOf inp.db (mkCfg inp mid false) h).1 = false) := by
  rw [processHospital_some_iff, processHospital_some_iff]
  simp only [trendBranch_some_iff, standardBranch_some_iff,
    mkCfg_is_trend, mkCfg_apply_filter, mkCfg_cy, mkCfg_cm, mkCfg_live_map, mkCfg_expected,
    currentMonthRows_mkCfg, resolveOf_mkCfg, recentOf_mkCfg, smrValueOf_mkCfg,
    recentSmrOf_mkCfg, thresholdAndValue_mkCfg, trendResult_mkCfg, standardResult_mkCfg,
    Bool.true_and, Bool.false_and]
  constructor
  · rintro ⟨hne, hcase⟩
    rcases hcase with ⟨htr, hcond, hsup, hr⟩ | ⟨htr, tv, h1, h2, h3, h4, h5, hsup, hr⟩
    · exact ⟨⟨hne, Or.inl ⟨htr, hcond, trivial, hr⟩⟩, hsup⟩
    · exact ⟨⟨hne, Or.inr ⟨htr, tv, h1, h2, h3, h4, h5, trivial, hr⟩⟩, hsup⟩
  · rintro ⟨⟨hne, hcase⟩, hsup⟩
    rcases hcase with ⟨htr, hcond, -, hr⟩ | ⟨htr, tv, h1, h2, h3, h4, h5, -, hr⟩
    · exact ⟨hne, Or.inl ⟨htr, hcond, hsup, hr⟩⟩
    · exact ⟨hne, Or.inr ⟨htr, tv, h1, h2, h3, h4, h5, hsup, hr⟩⟩

/-- C2: for every hospital, the current-period figures are resolved in
this order: a Historical Store row for the current (year, month) if one
exists for that hospital; otherwise the hospitals entry in the
live-aggregate map if present; otherwise deaths 0 and mortality rate 0.
Moreover every emitted alert carries exactly the figures so resolved. -/
theorem c2_resolution_order (inp : EvalInput) (mid : String) (filt : Bool)
    (rs : List AlertResult) (hok : calculate_model_results inp mid filt = .ok rs) :
    (∀ r ∈ rs, (r.deaths, r.mortality_rate) = resolveOf inp.db (mkCfg inp mid filt) r.hospital_name) ∧
    (∀ h : String, ∀ row : Row,
        (currentMonthRows inp.db (mkCfg inp mid filt) h).head? = some row →
        resolveOf inp.db (mkCfg inp mid filt) h = (row.deaths, row.mortality_rate)) ∧
    (∀ h : String, (currentMonthRows inp.db (mkCfg inp mid filt) h).head? = none →
        ∀ l : LiveRow, liveLookup (live_map_used inp) h = some l →
        resolveOf inp.db (mkCfg inp mid filt) h = (l.deaths, l.mortality_rate)) ∧
    (∀ h : String, (currentMonthRows inp.db (mkCfg inp mid filt) h).head? = none →
        liveLookup (live_map_used inp) h = none →
        resolveOf inp.db (mkCfg inp mid filt) h = (0, 0)) := by
  refine ⟨?_, ?_, ?_, ?_⟩
  · intro r hr
    rcases (mem_calculate_iff inp mid filt rs hok r).mp hr with ⟨-, hph⟩
    rcases processHospital_figures _ _ _ _ hph with ⟨hd, hm, -⟩
    rw [hd, hm]
  · intro h row hrow
    simp [resolveOf, resolveCurrentFigures, hrow]
  · intro h hnone l hl
    simp [resolveOf, resolveCurrentFigures, hnone, mkCfg_live_map, hl]
  · intro h hnone hl
    simp [resolveOf, resolveCurrentFigures, hnone, mkCfg_live_map, hl]

/-- Witness for c2_resolution_order: hospital A of wInpA has no store
row for 2025-05, so its emitted model1 alert carries the live figures. -/
theorem c2_witness :
    (wResA.deaths, wResA.mortality_rate) =
      resolveOf wInpA.db (mkCfg wInpA "model1" false) wResA.hospital_name :=
  (c2_resolution_order wInpA "model1" false [wResA] (by decide)).1 wResA (by decide)

theorem prevPeriod_ne (y m : Int) : prevPeriod y m ≠ (y, m) := by
  unfold prevPeriod
  split_ifs <;> simp

theorem prevPrev_ne (y m : Int) :
    prevPeriod (prevPeriod y m).1 (prevPeriod y m).2 ≠ (y, m) := by
  unfold prevPeriod
  split_ifs <;> simp <;> omega

theorem get_mortality_for_month_nil (lm : List LiveRow) (h : String) (cy cm y m : Int)
    (hne : ¬(y = cy ∧ m = cm)) :
    get_mortality_for_month [] lm h cy cm y m = 0 := by
  unfold get_mortality_for_month
  rw [if_neg]
  · simp
  · simp only [Bool.and_eq_true, beq_iff_eq]
    exact fun hc => hne ⟨hc.1, hc.2⟩

theorem trendRates_nil (lm : List LiveRow) (h : String) (cy cm : Int) :
    (trendRates [] lm h cy cm).1 = 0 ∧ (trendRates [] lm h cy cm).2.1 = 0 := by
  unfold trendRates
  constructor
  · apply get_mortality_for_month_nil
    intro hc
    exact prevPrev_ne cy cm (by rw [Prod.ext_iff]; exact ⟨hc.1, hc.2⟩)
  · apply get_mortality_for_month_nil
    intro hc
    exact prevPeriod_ne cy cm (by rw [Prod.ext_iff]; exact ⟨hc.1, hc.2⟩)

/-- C4: Model 13 emits an alert for a hospital exactly when the
mortality rates of the current month, the previous month and the month
before that strictly increase over time, where the two past rates come
only from the Historical Store (0 if absent) and the current rate may
fall back to the live aggregate; every emitted Model 13 alert carries as
its threshold the earliest of the three rates. -/
theorem c4_model13_iff (inp : EvalInput) (rs : List AlertResult)
    (hok : calculate_model_results inp "model13" false = .ok rs) (h : String) :
    ((∃ r ∈ rs, r.hospital_name = h) ↔
      ((trendRates (get_monthly_data inp.db h) (live_map_used inp) h inp.currentYear inp.currentMonth).2.1 <
         (trendRates (get_monthly_data inp.db h) (live_map_used inp) h inp.currentYear inp.currentMonth).2.2 ∧
       (trendRates (get_monthly_data inp.db h) (live_map_used inp) h inp.currentYear inp.currentMonth).1 <
         (trendRates (get_monthly_data inp.db h) (live_map_used inp) h inp.currentYear inp.currentMonth).2.1)) ∧
    (∀ r ∈ rs, r.hospital_name = h →
      r.threshold = BVal.exact
        (trendRates (get_monthly_data inp.db h) (live_map_used inp) h inp.currentYear inp.currentMonth).1) := by
  have htr : (mkCfg inp "model13" false).is_trend = true := rfl
  constructor
  · constructor
    · rintro ⟨r, hr, hname⟩
      rcases (mem_calculate_iff inp "model13" false rs hok r).mp hr with ⟨-, hph⟩
      rw [hname] at hph
      rcases (processHospital_some_iff _ _ _ _).mp hph with ⟨-, hcase | hcase⟩
      · rcases (trendBranch_some_iff _ _ _ _ _ _).mp hcase.2 with ⟨hcond, -, -⟩
        simpa [mkCfg_live_map, mkCfg_cy, mkCfg_cm] using hcond
      · rw [htr] at hcase
        cases hcase.1
    · intro hcond
      by_cases hne : (get_monthly_data inp.db h).isEmpty
      · exfalso
        rw [List.isEmpty_iff] at hne
        rw [hne] at hcond
        rcases trendRates_nil (live_map_used inp) h inp.currentYear inp.currentMonth with ⟨h1, h2⟩
        rw [h1, h2] at hcond
        exact absurd hcond.2 (lt_irrefl 0)
      · set cfg := mkCfg inp "model13" false with hcfg
        set dr := resolveOf inp.db cfg h with hdr
        refine ⟨trendResult (get_monthly_data inp.db h) cfg h dr.1 dr.2, ?_, rfl⟩
        have hname : (trendResult (get_monthly_data inp.db h) cfg h dr.1 dr.2).hospital_name = h := rfl
        rw [mem_calculate_iff inp "model13" false rs hok]
        rw [hname]
        refine ⟨mem_roster_of_history inp.db h (Bool.eq_false_iff.mpr hne), ?_⟩
        rw [processHospital_some_iff]
        refine ⟨Bool.eq_false_iff.mpr hne, Or.inl ⟨htr, ?_⟩⟩
        rw [trendBranch_some_iff]
        refine ⟨?_, by simp [mkCfg_apply_filter, hcfg], rfl⟩
        simpa [hcfg, mkCfg_live_map, mkCfg_cy, mkCfg_cm] using hcond
  · intro r hr hname
    rcases (mem_calculate_iff inp "model13" false rs hok r).mp hr with ⟨-, hph⟩
    rw [hname] at hph
    rcases (processHospital_some_iff _ _ _ _).mp hph with ⟨-, hcase | hcase⟩
    · rcases (trendBranch_some_iff _ _ _ _ _ _).mp hcase.2 with ⟨-, -, hrr⟩
      rw [hrr]
      rfl
    · rw [htr] at hcase
      cases hcase.1

/-- Witness for c4_model13_iff: in wInpT the rates 1, 2, 3 strictly
increase, so hospital T appears in the Model 13 output. -/
theorem c4_witness : ∃ r ∈ [wResT], r.hospital_name = "T" :=
  ((c4_model13_iff wInpT [wResT] (by decide) "T").1).mpr (by decide)

/-- C3: an alert that fires (it is in the unfiltered output) survives
the exclusion filter exactly when the filter does not suppress it, and
the filter suppresses exactly when the previous months death count is
available in the hospitals history and the increase of the current
count over it is at most 2; an unavailable previous month never
suppresses.  This holds for every model id, the trend model included. -/
theorem c3_exclusion_filter (inp : EvalInput) (mid : String)
    (rs rs' : List AlertResult)
    (hok : calculate_model_results inp mid false = .ok rs)
    (hok' : calculate_model_results inp mid true = .ok rs')
    (r : AlertResult) (hr : r ∈ rs) :
    (r ∈ rs' ↔
      exclusionSuppresses (get_monthly_data inp.db r.hospital_name)
        inp.currentYear inp.currentMonth r.deaths = false) ∧
    (∀ ad : List Row, ∀ cy cm cd : Int,
      (exclusionSuppresses ad cy cm cd = true ↔
        ∃ pd : Int, get_previous_month_deaths ad cy cm = some pd ∧ cd - pd ≤ 2)) := by
  constructor
  · rcases (mem_calculate_iff inp mid false rs hok r).mp hr with ⟨hroster, hph⟩
    have hd := (processHospital_figures _ _ _ _ hph).1
    rw [mem_calculate_iff inp mid true rs' hok' r]
    rw [processHospital_filter_iff]
    rw [← hd]
    constructor
    · rintro ⟨-, -, hsup⟩
      exact hsup
    · intro hsup
      exact ⟨hroster, hph, hsup⟩
  · intro ad cy cm cd
    unfold exclusionSuppresses
    cases hpd : get_previous_month_deaths ad cy cm with
    | none => simp
    | some pd => simp

/-- Witness for c3_exclusion_filter: the model1 alert of hospital E in
wInpE (10 deaths against previous month 9, increase 1) is suppressed by
the filter, so it is absent from the filtered output. -/
theorem c3_witness : wResE ∉ ([] : List AlertResult) :=
  fun hmem =>
    absurd
      (((c3_exclusion_filter wInpE "model1" [wResE] [] (by decide) (by decide) wResE
        (by decide)).1).mp hmem)
      (by decide)

/-- C10: the live-aggregate map is consulted only when the Historical
Store holds no row at all for the current month; as soon as one
hospital has a current-month row, the map used by the run is empty,
the map would have been the live fetch only in the no-rows case, and
every emitted alert of a hospital without a current-month row carries
deaths 0 and mortality rate 0 rather than live figures. -/
theorem c10_live_map_gating (inp : EvalInput) (mid : String) (filt : Bool)
    (rs : List AlertResult) (hok : calculate_model_results inp mid filt = .ok rs)
    (row : Row) (hrow : row ∈ inp.db)
    (hy : row.year = inp.currentYear) (hm : row.month = inp.currentMonth) :
    live_map_used inp = [] ∧
    ((inp.db.filter (fun q => q.year == inp.currentYear && q.month == inp.currentMonth)).isEmpty = true →
      live_map_used inp = inp.live) ∧
    (∀ r ∈ rs, (currentMonthRows inp.db (mkCfg inp mid filt) r.hospital_name).isEmpty = true →
      r.deaths = 0 ∧ r.mortality_rate = 0) := by
  have hmemf : row ∈ inp.db.filter (fun q => q.year == inp.currentYear && q.month == inp.currentMonth) :=
    List.mem_filter.mpr ⟨hrow, by simp [hy, hm]⟩
  have hfe : (inp.db.filter (fun q => q.year == inp.currentYear && q.month == inp.currentMonth)).isEmpty = false := by
    rw [Bool.eq_false_iff]
    intro hc
    rw [List.isEmpty_iff] at hc
    rw [hc] at hmemf
    cases hmemf
  have hlm : live_map_used inp = [] := by
    unfold live_map_used
    rw [if_neg]
    rw [hfe]
    exact Bool.false_ne_true
  refine ⟨hlm, ?_, ?_⟩
  · intro hc
    rw [hc] at hfe
    cases hfe
  · intro r hr hcmr
    rcases (mem_calculate_iff inp mid filt rs hok r).mp hr with ⟨-, hph⟩
    rcases processHospital_figures _ _ _ _ hph with ⟨hd, hmr, -⟩
    have hres : resolveOf inp.db (mkCfg inp mid filt) r.hospital_name = (0, 0) := by
      unfold resolveOf resolveCurrentFigures
      rw [List.isEmpty_iff] at hcmr
      rw [hcmr]
      simp [mkCfg_live_map, hlm, liveLookup]
    rw [hres] at hd hmr
    exact ⟨hd, hmr⟩

/-- The alert hospital X produces under model1 in wInpX. -/
def wResX : AlertResult :=
  { hospital_name := "X", current_period := "2025-05", deaths := 9, mortality_rate := 9,
    threshold := .exact 1, smr := none, status := "Alert",
    last_6_months_mortality :=
      [("2024-12", 0), ("2025-01", 0), ("2025-02", 0), ("2025-03", 0), ("2025-04", 1), ("2025-05", 9)],
    trend_info := none }

/-- Witness for c10_live_map_gating: in wInpX hospital X has a
current-month store row, so the live map used by the run is empty. -/
theorem c10_witness : live_map_used wInpX = [] :=
  (c10_live_map_gating wInpX "model1" false [wResX] (by decide)
    { hospital_name := "X", year := 2025, month := 5, total_patients := 100,
      deaths := 9, mortality_rate := 9 }
    (by decide) (by decide) (by decide)).1

/-- The thirteen model ids the engine knows. -/
def knownModelIds : List String :=
  ["model1", "model2", "model3", "model4", "model5", "model6", "model7", "model8",
   "model9", "model10", "model11", "model12", "model13"]

theorem mkCfg_use_highest (inp : EvalInput) (mid : String) (b : Bool) :
    (mkCfg inp mid b).use_highest = model_use_highest mid := rfl

theorem mkCfg_use_avg_1sd (inp : EvalInput) (mid : String) (b : Bool) :
    (mkCfg inp mid b).use_avg_1sd = model_use_avg_1sd mid := rfl

theorem unknown_not_highest (mid : String)
    (hmid : knownModelIds.contains mid = false) : model_use_highest mid = false := by
  by_contra hc
  rw [Bool.not_eq_false] at hc
  unfold model_use_highest at hc
  rw [contains_true_iff] at hc
  fin_cases hc <;> exact absurd hmid (by decide)

theorem unknown_not_avg (mid : String)
    (hmid : knownModelIds.contains mid = false) : model_use_avg_1sd mid = false := by
  by_contra hc
  rw [Bool.not_eq_false] at hc
  unfold model_use_avg_1sd at hc
  rw [contains_true_iff] at hc
  fin_cases hc <;> exact absurd hmid (by decide)

theorem unknown_not_trend (mid : String)
    (hmid : knownModelIds.contains mid = false) : model_is_trend mid = false := by
  by_contra hc
  rw [Bool.not_eq_false] at hc
  unfold model_is_trend at hc
  have : mid = "model13" := by simpa using hc
  rw [this] at hmid
  exact absurd hmid (by decide)

theorem thresholdAndValue_none (cfg : RunCfg) (hh : cfg.use_highest = false)
    (ha : cfg.use_avg_1sd = false) (l : List Row) (cd : Int) (cmr : ℚ)
    (sv : Option ℚ) (rsm : List ℚ) :
    thresholdAndValue cfg l cd cmr sv rsm = none := by
  unfold thresholdAndValue
  rw [hh, ha]
  simp

/-- C6 (amended): a model id outside the thirteen known ones yields the
empty result list, unless the id starts with the word model and its
remainder is not an integer literal, in which case the int() call of
models.py lines 226-228 raises ValueError instead of returning. -/
theorem c6_unknown_model (inp : EvalInput) (filt : Bool) (mid : String)
    (hmid : knownModelIds.contains mid = false) :
    (model_raises mid = true → calculate_model_results inp mid filt =
      .error "ValueError: invalid literal for int() with base 10") ∧
    (model_raises mid = false → calculate_model_results inp mid filt = .ok []) := by
  constructor
  · intro h
    unfold calculate_model_results
    rw [if_pos h]
  · intro h
    unfold calculate_model_results
    rw [if_neg (by rw [h]; exact Bool.false_ne_true)]
    have hnone : ∀ hosp, processHospital inp.db (mkCfg inp mid filt) hosp = none := by
      intro hosp
      cases hv : processHospital inp.db (mkCfg inp mid filt) hosp with
      | none => rfl
      | some r =>
          exfalso
          rcases (processHospital_some_iff _ _ _ _).mp hv with ⟨-, hcase | hcase⟩
          · rw [mkCfg_is_trend, unknown_not_trend mid hmid] at hcase
            cases hcase.1
          · rcases (standardBranch_some_iff _ _ _ _ _ _ _ _).mp hcase.2 with
              ⟨tv, -, -, htv, -, -, -, -⟩
            rw [thresholdAndValue_none _ (by rw [mkCfg_use_highest]; exact unknown_not_highest mid hmid)
              (by rw [mkCfg_use_avg_1sd]; exact unknown_not_avg mid hmid)] at htv
            cases htv
    have hfm : List.filterMap (processHospital inp.db (mkCfg inp mid filt))
        (get_all_hospitals inp.db) = [] :=
      List.filterMap_eq_nil_iff.mpr (fun a _ => hnone a)
    show Except.ok (rankResults (mkCfg inp mid filt).is_trend (mkCfg inp mid filt).is_smr
      (mkCfg inp mid filt).is_percentage
      (List.filterMap (processHospital inp.db (mkCfg inp mid filt)) (get_all_hospitals inp.db))) =
      Except.ok []
    rw [hfm, rankResults_nil]

/-- Witness for c6_unknown_model: model99 is unknown but parses as an
integer, so it yields the empty list on wInpA. -/
theorem c6_witness : calculate_model_results wInpA "model99" false = .ok [] :=
  (c6_unknown_model wInpA false "model99" (by decide)).2 (by decide)

/-- An empty evaluation input. -/
def wInpEmpty : EvalInput :=
  { db := [], live := [], expected := [], currentYear := 2025, currentMonth := 5 }

/-- C6 counterexample: the id modelx is not one of the thirteen known
ids, yet evaluating it raises ValueError (models.py line 226 calls
int() on the non-numeric remainder outside any try block) instead of
returning an empty result list as the claim asserts. -/
theorem c6_counterexample :
    calculate_model_results wInpEmpty "modelx" false =
      .error "ValueError: invalid literal for int() with base 10" := by
  decide

theorem is_smr_not_trend (mid : String) (h : model_is_smr mid = true) :
    model_is_trend mid = false := by
  unfold model_is_smr at h
  rcases Bool.and_eq_true_iff.mp h with ⟨h1, -⟩
  simpa using h1

/-- C9 (amended): the smr key of an emitted alert is an explicit None
for Model 13, a float for the SMR models 5-8, and entirely absent (not
null) for the deaths and percentage models 1-4 and 9-12.  In the
embedding an absent dict key is the outer none, a key holding None is
some none, and a key holding a float v is some (some v). -/
theorem c9_smr_field (inp : EvalInput) (mid : String) (filt : Bool)
    (rs : List AlertResult) (hok : calculate_model_results inp mid filt = .ok rs)
    (r : AlertResult) (hr : r ∈ rs) :
    (model_is_trend mid = true → r.smr = some none) ∧
    (model_is_smr mid = true → ∃ v : ℚ, r.smr = some (some v)) ∧
    (model_is_trend mid = false → model_is_smr mid = false → r.smr = none) := by
  rcases (mem_calculate_iff inp mid filt rs hok r).mp hr with ⟨-, hph⟩
  rcases (processHospital_some_iff _ _ _ _).mp hph with ⟨-, hcase | hcase⟩
  · rcases (trendBranch_some_iff _ _ _ _ _ _).mp hcase.2 with ⟨-, -, hrr⟩
    have htr : model_is_trend mid = true := by
      rw [← mkCfg_is_trend inp mid filt]
      exact hcase.1
    refine ⟨fun _ => by rw [hrr]; rfl, ?_, ?_⟩
    · intro hsmr
      exact absurd htr (by rw [is_smr_not_trend mid hsmr]; exact Bool.false_ne_true)
    · intro hnt
      exact absurd htr (by rw [hnt]; exact Bool.false_ne_true)
  · have hnt : model_is_trend mid = false := by
      rw [← mkCfg_is_trend inp mid filt]
      exact hcase.1
    rcases (standardBranch_some_iff _ _ _ _ _ _ _ _).mp hcase.2 with
      ⟨tv, -, -, -, -, h4, -, hrr⟩
    refine ⟨fun hc => absurd hc (by rw [hnt]; exact Bool.false_ne_true), ?_, ?_⟩
    · intro hsmr
      have hs : (mkCfg inp mid filt).is_smr = true := by rw [mkCfg_is_smr]; exact hsmr
      rw [hs, Bool.true_and] at h4
      cases hv : smrValueOf (mkCfg inp mid filt) r.hospital_name
          (resolveOf inp.db (mkCfg inp mid filt) r.hospital_name).2 with
      | none => rw [hv] at h4; cases h4
      | some v =>
          refine ⟨v, ?_⟩
          rw [hrr]
          show (if (mkCfg inp mid filt).is_smr then some (smrValueOf _ _ _) else none) = some (some v)
          rw [hs, if_pos rfl, hv]
    · intro _ hns
      rw [hrr]
      show (if (mkCfg inp mid filt).is_smr then some (smrValueOf _ _ _) else none) = none
      rw [mkCfg_is_smr, hns]
      simp

/-- Witness for c9_smr_field: hospital A of wInpA emits a model1 alert
whose smr key is absent. -/
theorem c9_witness : wResA.smr = none :=
  (c9_smr_field wInpA "model1" false [wResA] (by decide) wResA (by decide)).2.2
    (by decide) (by decide)

/-- C9 counterexample: the model1 alert emitted on wInpA omits the smr
key entirely (the outer none), contradicting the claim that every
emitted AlertResult contains an smr field holding a float or null
(models.py lines 564-566 attach the key only for SMR models). -/
theorem c9_counterexample :
    (calculate_model_results wInpA "model1" false).map (fun l => l.map (fun r => r.smr)) =
      .ok [none] := by
  decide

theorem thresholdAndValue_cases (cfg : RunCfg) (l : List Row) (cd : Int) (cmr : ℚ)
    (sv : Option ℚ) (rsm : List ℚ) (tv : BVal × ℚ)
    (htv : thresholdAndValue cfg l cd cmr sv rsm = some tv) :
    (cfg.is_deaths = true ∧ tv.2 = (cd : ℚ) ∧
      ((cfg.use_highest = true ∧ tv.1 = .exact (listMaxD (l.map (fun r => (r.deaths : ℚ))) 0)) ∨
       (cfg.use_highest = false ∧ cfg.use_avg_1sd = true ∧
         tv.1 = .meanPlusStd (l.map (fun r => (r.deaths : ℚ)))))) ∨
    (cfg.is_deaths = false ∧ cfg.is_smr = true ∧ rsm.isEmpty = false ∧
      (∃ v : ℚ, sv = some v ∧ tv.2 = v) ∧
      ((cfg.use_highest = true ∧ tv.1 = .exact (listMaxD rsm 0)) ∨
       (cfg.use_highest = false ∧ cfg.use_avg_1sd = true ∧ tv.1 = .meanPlusStd rsm))) ∨
    (cfg.is_deaths = false ∧ cfg.is_smr = false ∧ cfg.is_percentage = true ∧ tv.2 = cmr ∧
      ((cfg.use_highest = true ∧ tv.1 = .exact (listMaxD (l.map (fun r => r.mortality_rate)) 0)) ∨
       (cfg.use_highest = false ∧ cfg.use_avg_1sd = true ∧
         tv.1 = .meanPlusStd (l.map (fun r => r.mortality_rate))))) := by
  unfold thresholdAndValue at htv
  by_cases h1 : cfg.is_deaths = true
  · rw [if_pos h1] at htv
    by_cases h2 : cfg.use_highest = true
    · rw [if_pos h2] at htv
      cases htv
      exact Or.inl ⟨h1, rfl, Or.inl ⟨h2, rfl⟩⟩
    · rw [if_neg h2] at htv
      by_cases h3 : cfg.use_avg_1sd = true
      · rw [if_pos h3] at htv
        cases htv
        exact Or.inl ⟨h1, rfl, Or.inr ⟨Bool.eq_false_iff.mpr h2, h3, rfl⟩⟩
      · rw [if_neg h3] at htv
        cases htv
  · rw [if_neg h1] at htv
    by_cases h2 : cfg.is_smr = true
    · rw [if_pos h2] at htv
      by_cases h0 : rsm.isEmpty = true
      · rw [if_pos h0] at htv
        cases htv
      · rw [if_neg h0] at htv
        by_cases h3 : cfg.use_highest = true
        · rw [if_pos h3] at htv
          cases hsv : sv with
          | none => rw [hsv] at htv; cases htv
          | some v =>
              rw [hsv] at htv
              cases htv
              exact Or.inr (Or.inl ⟨Bool.eq_false_iff.mpr h1, h2, Bool.eq_false_iff.mpr h0,
                ⟨v, rfl, rfl⟩, Or.inl ⟨h3, rfl⟩⟩)
        · rw [if_neg h3] at htv
          by_cases h4 : cfg.use_avg_1sd = true
          · rw [if_pos h4] at htv
            cases hsv : sv with
            | none => rw [hsv] at htv; cases htv
            | some v =>
                rw [hsv] at htv
                cases htv
                exact Or.inr (Or.inl ⟨Bool.eq_false_iff.mpr h1, h2, Bool.eq_false_iff.mpr h0,
                  ⟨v, rfl, rfl⟩, Or.inr ⟨Bool.eq_false_iff.mpr h3, h4, rfl⟩⟩)
          · rw [if_neg h4] at htv
            cases htv
    · rw [if_neg h2] at htv
      by_cases h3 : cfg.is_percentage = true
      · rw [if_pos h3] at htv
        by_cases h4 : cfg.use_highest = true
        · rw [if_pos h4] at htv
          cases htv
          exact Or.inr (Or.inr ⟨Bool.eq_false_iff.mpr h1, Bool.eq_false_iff.mpr h2, h3, rfl,
            Or.inl ⟨h4, rfl⟩⟩)
        · rw [if_neg h4] at htv
          by_cases h5 : cfg.use_avg_1sd = true
          · rw [if_pos h5] at htv
            cases htv
            exact Or.inr (Or.inr ⟨Bool.eq_false_iff.mpr h1, Bool.eq_false_iff.mpr h2, h3, rfl,
              Or.inr ⟨Bool.eq_false_iff.mpr h4, h5, rfl⟩⟩)
          · rw [if_neg h5] at htv
            cases htv
      · rw [if_neg h3] at htv
        cases htv

/-- C1 (amended): for models 1-12 the period excluded from the lookback
window is the current month when the hospital has a current-month row in
the Historical Store, and the previous calendar month otherwise
(models.py lines 434-442); the window never contains the excluded
period and draws only from the hospitals own history; and the emitted
threshold is computed from exactly that window. -/
theorem c1_lookback_window (inp : EvalInput) (mid : String) (filt : Bool)
    (rs : List AlertResult) (hok : calculate_model_results inp mid filt = .ok rs)
    (hmid : model_is_trend mid = false) (r : AlertResult) (hr : r ∈ rs) :
    ((currentMonthRows inp.db (mkCfg inp mid filt) r.hospital_name).isEmpty = false →
      exclude_period (currentMonthRows inp.db (mkCfg inp mid filt) r.hospital_name)
        inp.currentYear inp.currentMonth = (inp.currentYear, inp.currentMonth)) ∧
    ((currentMonthRows inp.db (mkCfg inp mid filt) r.hospital_name).isEmpty = true →
      exclude_period (currentMonthRows inp.db (mkCfg inp mid filt) r.hospital_name)
        inp.currentYear inp.currentMonth = prevPeriod inp.currentYear inp.currentMonth) ∧
    (∀ w ∈ recentOf (sortDesc (get_monthly_data inp.db r.hospital_name)) (mkCfg inp mid filt)
        (currentMonthRows inp.db (mkCfg inp mid filt) r.hospital_name),
      w ∈ get_monthly_data inp.db r.hospital_name ∧
      ¬(w.year = (exclude_period (currentMonthRows inp.db (mkCfg inp mid filt) r.hospital_name)
            inp.currentYear inp.currentMonth).1 ∧
        w.month = (exclude_period (currentMonthRows inp.db (mkCfg inp mid filt) r.hospital_name)
            inp.currentYear inp.currentMonth).2)) ∧
    (∃ tv : BVal × ℚ,
      thresholdAndValue (mkCfg inp mid filt)
        (recentOf (sortDesc (get_monthly_data inp.db r.hospital_name)) (mkCfg inp mid filt)
          (currentMonthRows inp.db (mkCfg inp mid filt) r.hospital_name))
        (resolveOf inp.db (mkCfg inp mid filt) r.hospital_name).1
        (resolveOf inp.db (mkCfg inp mid filt) r.hospital_name).2
        (smrValueOf (mkCfg inp mid filt) r.hospital_name
          (resolveOf inp.db (mkCfg inp mid filt) r.hospital_name).2)
        (recentSmrOf (mkCfg inp mid filt) r.hospital_name
          (recentOf (sortDesc (get_monthly_data inp.db r.hospital_name)) (mkCfg inp mid filt)
            (currentMonthRows inp.db (mkCfg inp mid filt) r.hospital_name))) = some tv ∧
      r.threshold = tv.1) := by
  refine ⟨?_, ?_, ?_, ?_⟩
  · intro h
    unfold exclude_period
    rw [if_neg]
    rw [h]
    exact Bool.false_ne_true
  · intro h
    unfold exclude_period
    rw [if_pos h]
  · intro w hw
    have hmem := mem_get_recent _ _ _ _ w hw
    constructor
    · unfold sortDesc at hmem
      exact (mem_sortByB _ _ _).mp hmem.1
    · exact hmem.2
  · rcases (mem_calculate_iff inp mid filt rs hok r).mp hr with ⟨-, hph⟩
    rcases (processHospital_some_iff _ _ _ _).mp hph with ⟨-, hcase | hcase⟩
    · rw [mkCfg_is_trend, hmid] at hcase
      cases hcase.1
    · rcases (standardBranch_some_iff _ _ _ _ _ _ _ _).mp hcase.2 with
        ⟨tv, -, -, htv, -, -, -, hrr⟩
      exact ⟨tv, htv, by rw [hrr]; rfl⟩

/-- C1 counterexample: hospital A of wInpA has no row for the current
month 2025-05, and the model1 run bases its threshold on the window
that excludes the previous month 2025-04 (maximum 3 deaths over
2025-01..03), while the window the claim describes (excluding exactly
the evaluation month) spans 2025-02..04 with maximum 4; the excluded
period is therefore the previous month, which the claim rules out. -/
theorem c1_counterexample :
    (calculate_model_results wInpA "model1" false).map (fun l => l.map (fun r => r.threshold)) =
      .ok [.exact 3] ∧
    (get_recent_months_data (sortDesc (get_monthly_data wInpA.db "A")) 3 (some 2025) (some 5)).map
        (fun w => (w.year, w.month)) = [(2025, 4), (2025, 3), (2025, 2)] ∧
    listMaxD ((get_recent_months_data (sortDesc (get_monthly_data wInpA.db "A")) 3
        (some 2025) (some 5)).map (fun w => (w.deaths : ℚ))) 0 = 4 ∧
    BVal.exact (3 : ℚ) ≠ BVal.exact (4 : ℚ) := by
  decide

/-- Witness for c1_lookback_window: hospital A of wInpA lacks a
current-month row, so the period the run excludes is the previous
month 2025-04. -/
theorem c1_witness :
    exclude_period (currentMonthRows wInpA.db (mkCfg wInpA "model1" false) wResA.hospital_name)
      wInpA.currentYear wInpA.currentMonth = prevPeriod wInpA.currentYear wInpA.currentMonth :=
  (c1_lookback_window wInpA "model1" false [wResA] (by decide) (by decide) wResA
    (by decide)).2.1 (by decide)

theorem use_avg_not_trend (mid : String) (h : model_use_avg_1sd mid = true) :
    model_is_trend mid = false := by
  unfold model_use_avg_1sd at h
  rw [contains_true_iff] at h
  fin_cases h <;> decide

/-- C7: for every MEAN+1SD model (3, 4, 7, 8, 11, 12), when the
lookback window holds exactly one record the sample standard deviation
is treated as 0 (models.py lines 476-477, 497-498, 514-515 replace the
pandas NaN), so the emitted threshold is the symbolic MEAN+1SD over the
one-element window and its real value equals that single metric value:
the mean of a single value, never a NaN. -/
theorem c7_single_record_baseline (inp : EvalInput) (mid : String) (filt : Bool)
    (rs : List AlertResult) (hok : calculate_model_results inp mid filt = .ok rs)
    (hmid : model_use_avg_1sd mid = true)
    (r : AlertResult) (hr : r ∈ rs) (row : Row)
    (hwin : recentOf (sortDesc (get_monthly_data inp.db r.hospital_name)) (mkCfg inp mid filt)
        (currentMonthRows inp.db (mkCfg inp mid filt) r.hospital_name) = [row]) :
    (model_is_deaths mid = true →
      r.threshold = BVal.meanPlusStd [(row.deaths : ℚ)] ∧
      r.threshold.val = ((row.deaths : ℚ) : ℝ)) ∧
    (model_is_percentage mid = true →
      r.threshold = BVal.meanPlusStd [row.mortality_rate] ∧
      r.threshold.val = (row.mortality_rate : ℝ)) ∧
    (model_is_smr mid = true →
      ∀ e : ℚ, expectedLookup inp.expected r.hospital_name = some e →
      r.threshold = BVal.meanPlusStd [row.mortality_rate / e] ∧
      r.threshold.val = ((row.mortality_rate / e : ℚ) : ℝ)) := by
  rcases (mem_calculate_iff inp mid filt rs hok r).mp hr with ⟨-, hph⟩
  rcases (processHospital_some_iff _ _ _ _).mp hph with ⟨-, hcase | hcase⟩
  · rw [mkCfg_is_trend, use_avg_not_trend mid hmid] at hcase
    cases hcase.1
  · rcases (standardBranch_some_iff _ _ _ _ _ _ _ _).mp hcase.2 with
      ⟨tv, -, -, htv, -, -, -, hrr⟩
    have hth : r.threshold = tv.1 := by rw [hrr]; rfl
    rcases thresholdAndValue_cases _ _ _ _ _ _ _ htv with
      ⟨hd, -, hcase2⟩ | ⟨-, hs, -, -, hcase2⟩ | ⟨-, -, hp, -, hcase2⟩
    · rcases hcase2 with ⟨hh, -⟩ | ⟨-, -, ht1⟩
      · rw [mkCfg_use_highest] at hh
        rw [use_avg_not_highest mid hmid] at hh
        cases hh
      · rw [hwin] at ht1
        have hde : model_is_deaths mid = true := by rw [← mkCfg_is_deaths inp mid filt]; exact hd
        refine ⟨fun _ => ⟨by rw [hth, ht1]; rfl, ?_⟩, fun hpc => ?_, fun hsm e he => ?_⟩
        · rw [hth, ht1]
          show (BVal.meanPlusStd [(row.deaths : ℚ)]).val = _
          exact BVal.val_meanPlusStd_singleton _
        · rcases is_percentage_not_deaths_smr mid hpc with ⟨hnd, -⟩
          rw [hnd] at hde
          cases hde
        · rw [is_smr_not_deaths mid hsm] at hde
          cases hde
    · rcases hcase2 with ⟨hh, -⟩ | ⟨-, -, ht1⟩
      · rw [mkCfg_use_highest] at hh
        rw [use_avg_not_highest mid hmid] at hh
        cases hh
      · have hsm : model_is_smr mid = true := by rw [← mkCfg_is_smr inp mid filt]; exact hs
        refine ⟨fun hde => ?_, fun hpc => ?_, fun _ e he => ?_⟩
        · rw [is_smr_not_deaths mid hsm] at hde
          cases hde
        · rcases is_percentage_not_deaths_smr mid hpc with ⟨-, hns⟩
          rw [hns] at hsm
          cases hsm
        · have hrsm : recentSmrOf (mkCfg inp mid filt) r.hospital_name
              (recentOf (sortDesc (get_monthly_data inp.db r.hospital_name)) (mkCfg inp mid filt)
                (currentMonthRows inp.db (mkCfg inp mid filt) r.hospital_name)) =
              [row.mortality_rate / e] := by
            unfold recentSmrOf
            rw [if_pos hs]
            rw [mkCfg_expected, if_pos hsm, he, hwin]
            rfl
          rw [hrsm] at ht1
          refine ⟨by rw [hth, ht1], ?_⟩
          rw [hth, ht1]
          exact BVal.val_meanPlusStd_singleton _
    · rcases hcase2 with ⟨hh, -⟩ | ⟨-, -, ht1⟩
      · rw [mkCfg_use_highest] at hh
        rw [use_avg_not_highest mid hmid] at hh
        cases hh
      · rw [hwin] at ht1
        have hpc : model_is_percentage mid = true := by
          rw [← mkCfg_is_percentage inp mid filt]
          exact hp
        refine ⟨fun hde => ?_, fun _ => ⟨by rw [hth, ht1]; rfl, ?_⟩, fun hsm e he => ?_⟩
        · rcases is_percentage_not_deaths_smr mid hpc with ⟨hnd, -⟩
          rw [hnd] at hde
          cases hde
        · rw [hth, ht1]
          show (BVal.meanPlusStd [row.mortality_rate]).val = _
          exact BVal.val_meanPlusStd_singleton _
        · rcases is_percentage_not_deaths_smr mid hpc with ⟨-, hns⟩
          rw [hns] at hsm
          cases hsm

/-- The single lookback-window record of hospital S in wInpS. -/
def wRowS : Row :=
  { hospital_name := "S", year := 2025, month := 4, total_patients := 100,
    deaths := 1, mortality_rate := 1 }

unseal Rat.add Rat.mul Rat.sub Rat.inv in
/-- Witness for c7_single_record_baseline: the model3 window of hospital
S holds exactly the 2025-04 record, so the emitted threshold is the
one-point MEAN+1SD whose value is that records death count. -/
theorem c7_witness :
    wResS.threshold = BVal.meanPlusStd [(wRowS.deaths : ℚ)] ∧
    wResS.threshold.val = ((wRowS.deaths : ℚ) : ℝ) :=
  (c7_single_record_baseline wInpS "model3" false [wResS] (by decide) (by decide) wResS
    (by decide) wRowS (by decide)).1 (by decide)

theorem expectedValid_true (exp : List (String × ℚ)) (h : String)
    (hv : expectedValid exp h = true) :
    ∃ e : ℚ, expectedLookup exp h = some e ∧ 0 < e := by
  unfold expectedValid at hv
  cases hl : expectedLookup exp h with
  | none => rw [hl] at hv; cases hv
  | some e => rw [hl] at hv; exact ⟨e, rfl, of_decide_eq_true hv⟩

/-- The current-period value a models 1-12 run compares against its
threshold: the resolved death count for deaths models, the current SMR
for SMR models, the resolved mortality rate for percentage models. -/
def comparedValue (db : List Row) (cfg : RunCfg) (hospital : String) : ℚ :=
  if cfg.is_deaths then ((resolveOf db cfg hospital).1 : ℚ)
  else if cfg.is_smr then (smrValueOf cfg hospital (resolveOf db cfg hospital).2).getD 0
  else (resolveOf db cfg hospital).2

/-- C5: alerts of models 1-12 require a strictly greater current value
than the baseline.  The comparison decision agrees with the real-number
strict order (so equality never alerts), every emitted alert satisfies
the strict inequality over the reals, and a hospital resolved to zero
deaths and zero rate (no current-month row, no live entry) never
produces an alert when the historical inputs are non-negative, because
every baseline computed from non-negative inputs is non-negative. -/
theorem c5_strict_and_zero (inp : EvalInput) (mid : String) (filt : Bool)
    (rs : List AlertResult) (hok : calculate_model_results inp mid filt = .ok rs)
    (hmid : model_is_trend mid = false)
    (hnn : ∀ row ∈ inp.db, 0 ≤ row.deaths ∧ 0 ≤ row.mortality_rate)
    (hosp : String)
    (hcur : (currentMonthRows inp.db (mkCfg inp mid filt) hosp).isEmpty = true)
    (hlive : liveLookup (live_map_used inp) hosp = none) :
    (∀ t : BVal, ∀ v : ℚ, t.val = (v : ℝ) → t.ltB v = false) ∧
    (∀ r ∈ rs, r.threshold.val <
      ((comparedValue inp.db (mkCfg inp mid filt) r.hospital_name : ℚ) : ℝ)) ∧
    (∀ r ∈ rs, r.hospital_name ≠ hosp) := by
  have hres : resolveOf inp.db (mkCfg inp mid filt) hosp = (0, 0) := by
    unfold resolveOf resolveCurrentFigures
    rw [List.isEmpty_iff] at hcur
    unfold currentMonthRows at hcur
    unfold currentMonthRows
    rw [hcur]
    rw [mkCfg_live_map, hlive]
    rfl
  refine ⟨?_, ?_, ?_⟩
  · intro t v hv
    by_contra hc
    rw [Bool.not_eq_false, BVal.ltB_iff, hv] at hc
    exact lt_irrefl _ hc
  · intro r hr
    rcases (mem_calculate_iff inp mid filt rs hok r).mp hr with ⟨-, hph⟩
    rcases (processHospital_some_iff _ _ _ _).mp hph with ⟨-, hcase | hcase⟩
    · rw [mkCfg_is_trend, hmid] at hcase
      cases hcase.1
    · rcases (standardBranch_some_iff _ _ _ _ _ _ _ _).mp hcase.2 with
        ⟨tv, -, -, htv, hltb, -, -, hrr⟩
      have hth : r.threshold = tv.1 := by rw [hrr]; rfl
      have hlt := (BVal.ltB_iff tv.1 tv.2).mp hltb
      have hval : tv.2 = comparedValue inp.db (mkCfg inp mid filt) r.hospital_name := by
        unfold comparedValue
        rcases thresholdAndValue_cases _ _ _ _ _ _ _ htv with
          ⟨hd, hv2, -⟩ | ⟨hnd, hs, -, ⟨v, hsv, hv2⟩, -⟩ | ⟨hnd, hns, -, hv2, -⟩
        · rw [if_pos hd, hv2]
        · rw [if_neg (by rw [hnd]; exact Bool.false_ne_true), if_pos hs, hv2, hsv]
          rfl
        · rw [if_neg (by rw [hnd]; exact Bool.false_ne_true),
            if_neg (by rw [hns]; exact Bool.false_ne_true), hv2]
      rw [hth, ← hval]
      exact hlt
  · intro r hr hname
    rcases (mem_calculate_iff inp mid filt rs hok r).mp hr with ⟨-, hph⟩
    rw [hname] at hph
    rcases (processHospital_some_iff _ _ _ _).mp hph with ⟨-, hcase | hcase⟩
    · rw [mkCfg_is_trend, hmid] at hcase
      cases hcase.1
    · rcases (standardBranch_some_iff _ _ _ _ _ _ _ _).mp hcase.2 with
        ⟨tv, hrec, hsval, htv, hltb, -, -, -⟩
      have hwnn : ∀ w ∈ recentOf (sortDesc (get_monthly_data inp.db hosp)) (mkCfg inp mid filt)
          (currentMonthRows inp.db (mkCfg inp mid filt) hosp),
          (0:ℚ) ≤ (w.deaths : ℚ) ∧ (0:ℚ) ≤ w.mortality_rate := by
        intro w hw
        have hmem := mem_get_recent _ _ _ _ w hw
        have hw2 : w ∈ get_monthly_data inp.db hosp := by
          unfold sortDesc at hmem
          exact (mem_sortByB _ _ _).mp hmem.1
        rcases mem_get_monthly_data _ _ _ hw2 with ⟨hdb, -⟩
        rcases hnn w hdb with ⟨h1, h2⟩
        exact ⟨by exact_mod_cast h1, h2⟩
      have hrecne : recentOf (sortDesc (get_monthly_data inp.db hosp)) (mkCfg inp mid filt)
          (currentMonthRows inp.db (mkCfg inp mid filt) hosp) ≠ [] := by
        intro hc
        rw [hc] at hrec
        cases hrec
      rcases thresholdAndValue_cases _ _ _ _ _ _ _ htv with
        ⟨-, hv2, hsh⟩ | ⟨-, hs, hrsmne, ⟨v, hsv, hv2⟩, hsh⟩ | ⟨-, -, -, hv2, hsh⟩
      · have hv0 : tv.2 = 0 := by rw [hv2, hres]; simp
        rw [hv0] at hltb
        have hnn2 : ∀ x ∈ (recentOf (sortDesc (get_monthly_data inp.db hosp)) (mkCfg inp mid filt)
            (currentMonthRows inp.db (mkCfg inp mid filt) hosp)).map (fun w => (w.deaths : ℚ)),
            (0:ℚ) ≤ x := by
          intro x hx
          rcases List.mem_map.mp hx with ⟨w, hw, rfl⟩
          exact (hwnn w hw).1
        rcases hsh with ⟨-, ht1⟩ | ⟨-, -, ht1⟩
        · rw [ht1] at hltb
          rw [BVal.ltB_zero_of_exact_nonneg _
            (listMaxD_nonneg _ 0 (by simpa using hrecne) hnn2)] at hltb
          cases hltb
        · rw [ht1] at hltb
          rw [BVal.ltB_zero_of_mean_nonneg _ hnn2] at hltb
          cases hltb
      · have hsmr : (mkCfg inp mid filt).is_smr = true := hs
        rcases expectedValid_true _ hosp (by
          rw [Bool.and_eq_false_iff] at hsval
          rcases hsval with hbad | hgood
          · rw [hs] at hbad; cases hbad
          · simpa using hgood) with ⟨e, hle, hepos⟩
        have hsveq : smrValueOf (mkCfg inp mid filt) hosp
            (resolveOf inp.db (mkCfg inp mid filt) hosp).2 = some 0 := by
          unfold smrValueOf
          rw [if_pos hsmr, hle, hres]
          simp
        rw [hsveq] at hsv
        have hv0 : tv.2 = 0 := by rw [hv2, ← Option.some.inj hsv]
        rw [hv0] at hltb
        have hrsm : recentSmrOf (mkCfg inp mid filt) hosp
            (recentOf (sortDesc (get_monthly_data inp.db hosp)) (mkCfg inp mid filt)
              (currentMonthRows inp.db (mkCfg inp mid filt) hosp)) =
            (recentOf (sortDesc (get_monthly_data inp.db hosp)) (mkCfg inp mid filt)
              (currentMonthRows inp.db (mkCfg inp mid filt) hosp)).map
              (fun w => w.mortality_rate / e) := by
          unfold recentSmrOf
          rw [if_pos hsmr, hle]
          rfl
        have hnn2 : ∀ x ∈ recentSmrOf (mkCfg inp mid filt) hosp
            (recentOf (sortDesc (get_monthly_data inp.db hosp)) (mkCfg inp mid filt)
              (currentMonthRows inp.db (mkCfg inp mid filt) hosp)), (0:ℚ) ≤ x := by
          rw [hrsm]
          intro x hx
          rcases List.mem_map.mp hx with ⟨w, hw, rfl⟩
          exact div_nonneg (hwnn w hw).2 (le_of_lt hepos)
        have hrsmnenil : recentSmrOf (mkCfg inp mid filt) hosp
            (recentOf (sortDesc (get_monthly_data inp.db hosp)) (mkCfg inp mid filt)
              (currentMonthRows inp.db (mkCfg inp mid filt) hosp)) ≠ [] := by
          intro hc
          rw [hc] at hrsmne
          cases hrsmne
        rcases hsh with ⟨-, ht1⟩ | ⟨-, -, ht1⟩
        · rw [ht1] at hltb
          rw [BVal.ltB_zero_of_exact_nonneg _
            (listMaxD_nonneg _ 0 hrsmnenil hnn2)] at hltb
          cases hltb
        · rw [ht1] at hltb
          rw [BVal.ltB_zero_of_mean_nonneg _ hnn2] at hltb
          cases hltb
      · have hv0 : tv.2 = 0 := by rw [hv2, hres]
        rw [hv0] at hltb
        have hnn2 : ∀ x ∈ (recentOf (sortDesc (get_monthly_data inp.db hosp)) (mkCfg inp mid filt)
            (currentMonthRows inp.db (mkCfg inp mid filt) hosp)).map (fun w => w.mortality_rate),
            (0:ℚ) ≤ x := by
          intro x hx
          rcases List.mem_map.mp hx with ⟨w, hw, rfl⟩
          exact (hwnn w hw).2
        rcases hsh with ⟨-, ht1⟩ | ⟨-, -, ht1⟩
        · rw [ht1] at hltb
          rw [BVal.ltB_zero_of_exact_nonneg _
            (listMaxD_nonneg _ 0 (by simpa using hrecne) hnn2)] at hltb
          cases hltb
        · rw [ht1] at hltb
          rw [BVal.ltB_zero_of_mean_nonneg _ hnn2] at hltb
          cases hltb

/-- Concrete run input: hospital B has only past months, no live entry,
and non-negative figures, so it resolves to zero activity. -/
def wInpB : EvalInput :=
  { db := [ { hospital_name := "B", year := 2025, month := 1, total_patients := 100, deaths := 1, mortality_rate := 1 }
          , { hospital_name := "B", year := 2025, month := 2, total_patients := 100, deaths := 2, mortality_rate := 2 }
          , { hospital_name := "B", year := 2025, month := 3, total_patients := 100, deaths := 3, mortality_rate := 3 } ]
    live := []
    expected := []
    currentYear := 2025
    currentMonth := 5 }

/-- Witness for c5_strict_and_zero, instantiated at wInpB (whose model1
run is empty because hospital B resolves to zero activity): in
particular a current value exactly equal to the baseline never alerts. -/
theorem c5_witness : (BVal.exact 3).ltB 3 = false :=
  (c5_strict_and_zero wInpB "model1" false [] (by decide) (by decide) (by decide) "B"
    (by decide) (by decide)).1 (BVal.exact 3) 3 rfl

/-- C8 (amended): records produced by the BigQuery-backed sync paths
carry the percentage rounded to two decimals, while
update_monthly_aggregation (daily_update.py line 130) stores the exact
unrounded percentage, which satisfies the rounding equation exactly
when one hundred times the percentage is an integer. -/
theorem c8_mortality_rate_paths (deaths total_patients : Int) (h : 0 < total_patients) :
    bq_mortality_rate deaths total_patients =
      round2 ((deaths : ℚ) / (total_patients : ℚ) * 100) ∧
    daily_update_mortality_rate deaths total_patients =
      (deaths : ℚ) / (total_patients : ℚ) * 100 ∧
    (daily_update_mortality_rate deaths total_patients =
        round2 ((deaths : ℚ) / (total_patients : ℚ) * 100) ↔
      (100 * ((deaths : ℚ) / (total_patients : ℚ) * 100)).den = 1) := by
  have h2 : daily_update_mortality_rate deaths total_patients =
      (deaths : ℚ) / (total_patients : ℚ) * 100 := by
    unfold daily_update_mortality_rate
    rw [if_pos h]
  refine ⟨rfl, h2, ?_⟩
  rw [h2]
  rw [eq_comm]
  exact round2_eq_self_iff _

/-- Witness for c8_mortality_rate_paths at one death in four patients:
the percentage 25 has at most two decimals, so both write paths agree. -/
theorem c8_witness :
    bq_mortality_rate 1 4 = round2 ((1 : ℚ) / (4 : ℚ) * 100) ∧
    daily_update_mortality_rate 1 4 = (1 : ℚ) / (4 : ℚ) * 100 ∧
    (daily_update_mortality_rate 1 4 = round2 ((1 : ℚ) / (4 : ℚ) * 100) ↔
      (100 * ((1 : ℚ) / (4 : ℚ) * 100)).den = 1) :=
  c8_mortality_rate_paths 1 4 (by decide)

unseal Rat.add Rat.mul Rat.sub Rat.inv in
/-- C8 counterexample: one death among three patients yields the stored
rate 100/3 on the daily-update path, which differs from the two-decimal
rounding 33.33 the claim requires of every write path. -/
theorem c8_counterexample :
    daily_update_mortality_rate 1 3 ≠ round2 ((1 : ℚ) / (3 : ℚ) * 100) := by
  decide
